import Mathlib

/-!
Shallow embedding of the OBJCLASS CSV ingestion pipeline of the
FederalBudgetDashboard repository (`backend/scripts/objclass_parser.py`),
together with proofs about its field parsers, dimension resolver, row
processor and import-batch ledger.

Python strings are modelled as `String`/`List Char`; `str.strip()` is
modelled over ASCII whitespace.  Machine floats (`float(...)` in
`_parse_amount`) are modelled exactly as binary64 round-to-nearest-even
over `ℚ` with unbounded exponent (no overflow/subnormal range, which the
dollar amounts at hand never reach).
-/

namespace ObjClass

unseal Rat.mul Rat.inv Rat.add Rat.sub

deriving instance DecidableEq for Except

set_option maxRecDepth 16000
set_option exponentiation.threshold 2000

/-- ASCII whitespace characters stripped by the model of Python `str.strip()`. -/
def isWS (c : Char) : Bool :=
  c = ' ' || c = '\t' || c = '\n' || c = '\r' || c = '\x0b' || c = '\x0c'

/-- Removes leading and trailing whitespace from a character list. -/
def trimChars (l : List Char) : List Char :=
  ((l.dropWhile isWS).reverse.dropWhile isWS).reverse

/-- Model of Python `str.strip()` on a string. -/
def pyStrip (s : String) : String :=
  String.mk (trimChars s.toList)

/-- Splits a character list at the first occurrence of `sep`
(the behaviour of Python `str.split(sep, 1)` when `sep` occurs);
returns `none` when `sep` does not occur (Python `sep in s` false). -/
def splitFirstInfix (sep : List Char) : List Char → Option (List Char × List Char)
  | [] => if sep = [] then some ([], []) else none
  | c :: rest =>
    if sep.isPrefixOf (c :: rest) then
      some ([], (c :: rest).drop sep.length)
    else
      match splitFirstInfix sep rest with
      | some (pre, post) => some (c :: pre, post)
      | none => none

/-- Model of Python `pat in s` (literal substring containment). -/
def containsSub (pat s : String) : Bool :=
  (splitFirstInfix pat.toList s.toList).isSome

/-- Embeds `OBJCLASSParser._parse_function_field`: strip the field, split on
the first occurrence of the literal `" - "` into stripped code and name,
or fall back to the whole stripped field as both. -/
def parseFunctionField (v : String) : String × String :=
  let t := pyStrip v
  match splitFirstInfix (" - ".toList) t.toList with
  | some (pre, post) => (pyStrip (String.mk pre), pyStrip (String.mk post))
  | none => (t, t)

/-- Embeds `OBJCLASSParser._extract_period`: first match among the literal
substrings `"PY"`, `"CY"`, `"BY"`, defaulting to `"CY"`. -/
def extractPeriod (col : String) : String :=
  if containsSub "PY" col then "PY"
  else if containsSub "CY" col then "CY"
  else if containsSub "BY" col then "BY"
  else "CY"

/-- Numeric value of a digit character. -/
def charDigit (c : Char) : ℕ := c.toNat - 48

/-- Matches the regex `20\d{2}` at the head of the list, returning the
four-digit year. -/
def yearAt : List Char → Option ℕ
  | '2' :: '0' :: c :: d :: _ =>
    if c.isDigit && d.isDigit then some (2000 + 10 * charDigit c + charDigit d)
    else none
  | _ => none

/-- Leftmost match of the regex `20\d{2}` (model of `re.search`). -/
def findYear : List Char → Option ℕ
  | [] => none
  | c :: rest =>
    match yearAt (c :: rest) with
    | some y => some y
    | none => findYear rest

/-- Embeds `OBJCLASSParser._extract_fiscal_year`: first `20\d{2}` match in
the column name, else the default `2026`. -/
def extractFiscalYear (col : String) : ℕ :=
  (findYear col.toList).getD 2026

/-- The ten required OBJCLASS column headers
(`required_columns` in `validate_csv_structure`). -/
def requiredColumns : List String :=
  ["OMB Agency Code", "Agency Title",
   "OMB Bureau Code", "Bureau Title",
   "OMB Account", "Account _Title",
   "Default Budget Function", "Default Budget Subfunction",
   "OB Class Code", "OB Class"]

/-- A header is an amount column when it contains one of the literal
substrings `"PY"`, `"CY"`, `"BY"` (`any(year in col for year in [...])`). -/
def isAmountCol (col : String) : Bool :=
  containsSub "PY" col || containsSub "CY" col || containsSub "BY" col

/-- Embeds `OBJCLASSParser.validate_csv_structure` over the CSV headers:
fails when a required column is missing or no amount column is found. -/
def validateCsvStructure (headers : List String) : Bool :=
  let amountColumns := headers.filter isAmountCol
  let missingColumns := requiredColumns.filter (fun c => !(headers.contains c))
  if missingColumns ≠ [] then false
  else if amountColumns = [] then false
  else true

/-! ### Model of CPython binary64 arithmetic used by `_parse_amount`

`_parse_amount` computes `int(float(str_value) * 1000)`.  `float(...)`
rounds the exact decimal value to the nearest IEEE-754 binary64 number
(ties to even) and `*` rounds the exact product the same way; `int(...)`
truncates toward zero.  We model binary64 numbers as the rationals with a
53-bit significand, with unbounded exponent (the finite exponent range of
binary64 is never exercised by budget amounts). -/

/-- Fuelled floor of the base-2 logarithm on naturals. -/
def natLog2F : ℕ → ℕ → ℕ
  | 0, _ => 0
  | fuel + 1, n => if n < 2 then 0 else natLog2F fuel (n / 2) + 1

/-- Floor of the base-2 logarithm (`natLog2 0 = 0`). -/
def natLog2 (n : ℕ) : ℕ := natLog2F n n

/-- The rational `2 ^ e` for an integer exponent. -/
def pow2q (e : ℤ) : ℚ :=
  if 0 ≤ e then ((2 ^ e.toNat : ℕ) : ℚ) else (((2 ^ (-e).toNat : ℕ) : ℚ))⁻¹

/-- The rational `10 ^ e` for an integer exponent. -/
def pow10q (e : ℤ) : ℚ :=
  if 0 ≤ e then ((10 ^ e.toNat : ℕ) : ℚ) else (((10 ^ (-e).toNat : ℕ) : ℚ))⁻¹

/-- Floor of a rational as an integer. -/
def qfloor (q : ℚ) : ℤ := q.num.ediv (q.den : ℤ)

/-- Truncation of a rational toward zero (Python `int(...)` on a float). -/
def truncQ (q : ℚ) : ℤ := if 0 ≤ q then qfloor q else -(qfloor (-q))

/-- Nearest integer to a rational, ties to even. -/
def rhe (x : ℚ) : ℤ :=
  let f := qfloor x
  let r := x - (f : ℚ)
  if r < 1 / 2 then f
  else if 1 / 2 < r then f + 1
  else if f % 2 = 0 then f else f + 1

/-- Absolute value of a rational, written executably. -/
def qabs (q : ℚ) : ℚ := if q < 0 then -q else q

/-- For `q ≠ 0`, the exponent `e` with `2 ^ e ≤ |q| < 2 ^ (e + 1)`. -/
def qexp2 (q : ℚ) : ℤ :=
  let a : ℤ := natLog2 q.num.natAbs
  let b : ℤ := natLog2 q.den
  if pow2q (a - b + 1) ≤ qabs q then a - b + 1
  else if pow2q (a - b) ≤ qabs q then a - b
  else a - b - 1

/-- Rounds a rational to the nearest binary64 value (53-bit significand,
round to nearest, ties to even; exponent unbounded). -/
def rnd52 (q : ℚ) : ℚ :=
  if q = 0 then 0
  else
    let s := pow2q (qexp2 q - 52)
    (rhe (q / s) : ℚ) * s

/-! ### Model of CPython `float(str)`

The modelled grammar is CPython's: an optional sign followed by either
the words `inf`/`infinity`/`nan` (case-insensitive) or a decimal literal
`digits [. digits] [(e|E) [sign] digits]` with at least one mantissa
digit, where every digit group may contain single underscores between
digits (PEP 515).  A finite literal is converted by binary64
round-to-nearest-even; a literal whose rounded magnitude reaches `2^1024`
overflows to an infinity, exactly as `float()` does.  Two idealizations
are harmless for `_parse_amount`'s observable output: the text is ASCII
(the OBJCLASS cells are), and rounding below the subnormal threshold
keeps full precision — there `|value| * 1000 < 1`, so `int(...)`
truncates to `0` under either rounding. -/

/-- ASCII lower-casing of one character. -/
def toLowerAscii (c : Char) : Char :=
  if 'A' ≤ c ∧ c ≤ 'Z' then Char.ofNat (c.toNat + 32) else c

/-- Value of a digit string. -/
def digitsToNat (l : List Char) : ℕ :=
  l.foldl (fun acc c => 10 * acc + charDigit c) 0

/-- Continues a digit run in which a single `'_'` may sit between two
digits, returning the digits (underscores dropped) and the rest. -/
def digitsUAux : List Char → List Char × List Char
  | [] => ([], [])
  | [c] => if c.isDigit then ([c], []) else ([], [c])
  | c :: d :: rest =>
    if c.isDigit then
      let r := digitsUAux (d :: rest)
      (c :: r.1, r.2)
    else if c = '_' ∧ d.isDigit then
      let r := digitsUAux rest
      (d :: r.1, r.2)
    else ([], c :: d :: rest)

/-- Maximal digit group with PEP-515 underscores; it must start with a
digit, and each underscore must sit between two digits. -/
def spanDigitsU (l : List Char) : List Char × List Char :=
  match l with
  | c :: _ => if c.isDigit then digitsUAux l else ([], l)
  | [] => ([], [])

/-- Parses a complete signed digit group as an integer exponent. -/
def parseExpDigits (l : List Char) : Option ℤ :=
  let p : ℤ × List Char :=
    match l with
    | '+' :: r => (1, r)
    | '-' :: r => (-1, r)
    | _ => (1, l)
  let d := spanDigitsU p.2
  if d.1 = [] ∨ d.2 ≠ [] then none
  else some (p.1 * (digitsToNat d.1 : ℤ))

/-- Parses the optional exponent suffix of a decimal literal; the suffix
must consume the rest of the input. -/
def parseExpSuffix : List Char → Option ℤ
  | [] => some 0
  | 'e' :: r => parseExpDigits r
  | 'E' :: r => parseExpDigits r
  | _ => none

/-- Exact rational value of an unsigned decimal literal (underscores
allowed per PEP 515), or `none` when the input is not one. -/
def parseUnsigned (l : List Char) : Option ℚ :=
  let ipr := spanDigitsU l
  match ipr.2 with
  | '.' :: r2 =>
    let fpr := spanDigitsU r2
    if ipr.1 = [] ∧ fpr.1 = [] then none
    else
      match parseExpSuffix fpr.2 with
      | some e =>
        some (((digitsToNat ipr.1 : ℚ) +
          (digitsToNat fpr.1 : ℚ) / ((10 ^ fpr.1.length : ℕ) : ℚ)) * pow10q e)
      | none => none
  | _ =>
    if ipr.1 = [] then none
    else
      match parseExpSuffix ipr.2 with
      | some e => some ((digitsToNat ipr.1 : ℚ) * pow10q e)
      | none => none

/-- The value classes `float(str)` can produce from a literal. -/
inductive PyLit where
  | num (q : ℚ) : PyLit
  | inf : PyLit
  | neginf : PyLit
  | nan : PyLit
deriving DecidableEq

/-- The full `float(str)` literal grammar: optional sign, then the
case-insensitive words `inf`/`infinity`/`nan` or a decimal literal;
`none` models `float(...)` raising `ValueError`. -/
def parseLit (l : List Char) : Option PyLit :=
  let p : Bool × List Char :=
    match l with
    | '+' :: r => (false, r)
    | '-' :: r => (true, r)
    | _ => (false, l)
  let low := p.2.map toLowerAscii
  if low = "inf".toList ∨ low = "infinity".toList then
    some (if p.1 then PyLit.neginf else PyLit.inf)
  else if low = "nan".toList then some PyLit.nan
  else
    match parseUnsigned p.2 with
    | some q => some (PyLit.num (if p.1 then -q else q))
    | none => none

/-- `float(str)` on a finite literal overflows to an infinity exactly
when the binary64 rounding of the magnitude reaches `2^1024` (the next
representable value above the largest finite one). -/
def overflow52 (q : ℚ) : Bool := pow2q 1024 ≤ qabs (rnd52 q)

/-- The message of the Python `OverflowError` raised by `int()` on an
infinite float. -/
def overflowMsg : String := "cannot convert float infinity to integer"

/-- A raw amount cell: either a missing value (`pd.isna`) or the string
rendering `str(value)` of the cell. -/
inductive Cell where
  | nan : Cell
  | str (s : String) : Cell
deriving DecidableEq

/-- The cleaning step of `_parse_amount`: remove every `','` and `'$'`
character, then strip whitespace. -/
def cleanAmount (l : List Char) : List Char :=
  trimChars (l.filter (fun c => !(c = ',' || c = '$')))

/-- Embeds `OBJCLASSParser._parse_amount`.  `.ok none` models returning
`None`: missing cells, blank cleaned strings, non-literals
(`ValueError` from `float(...)`, caught) and `nan` (`ValueError` from
`int(nan)`, caught).  `.error` models the `OverflowError` that
`int(...)` raises on an infinite float — the `except (ValueError,
TypeError)` clause does not catch it, so it escapes to the caller.
`.ok (some v)` is `int(float(s) * 1000)` in binary64 arithmetic. -/
def parseAmount : Cell → Except String (Option ℤ)
  | .nan => .ok none
  | .str s =>
    let c := cleanAmount s.toList
    if c = [] then .ok none
    else
      match parseLit c with
      | none => .ok none
      | some PyLit.nan => .ok none
      | some PyLit.inf => .error overflowMsg
      | some PyLit.neginf => .error overflowMsg
      | some (PyLit.num q) =>
        if overflow52 q then .error overflowMsg
        else if overflow52 (rnd52 q * 1000) then .error overflowMsg
        else .ok (some (truncQ (rnd52 (rnd52 q * 1000))))

example : parseLit (cleanAmount "1,234.50".toList) = some (.num (2469 / 2 : ℚ)) := by decide
example : parseAmount (.str "1,234.50") = .ok (some 1234500) := by decide
example : parseAmount (.str "1.015") = .ok (some 1014) := by decide
example : parseAmount (.str "") = .ok none := by decide
example : parseAmount (.str "abc") = .ok none := by decide
example : parseAmount (.str "0") = .ok (some 0) := by decide
example : parseAmount (.str "$2,000") = .ok (some 2000000) := by decide
example : parseAmount (.str "1_000") = .ok (some 1000000) := by decide
example : parseAmount (.str "1__0") = .ok none := by decide
example : parseAmount (.str "1_") = .ok none := by decide
example : parseAmount (.str "inf") = .error overflowMsg := by decide
example : parseAmount (.str "-Infinity") = .error overflowMsg := by decide
example : parseAmount (.str "nan") = .ok none := by decide
example : parseAmount (.str "1e400") = .error overflowMsg := by decide

/-! ### Basic facts about the substring search -/

theorem splitFirstInfix_isSome_iff (sep l : List Char) :
    (splitFirstInfix sep l).isSome = true ↔ sep <:+: l := by
  induction l with
  | nil =>
    simp only [splitFirstInfix, List.infix_nil]
    split <;> simp_all
  | cons c rest ih =>
    rw [List.infix_cons_iff]
    simp only [splitFirstInfix]
    split
    · simp_all only [Option.isSome_some, true_iff]
      left
      exact List.isPrefixOf_iff_prefix.mp (by assumption)
    · have hnp : ¬ sep <+: c :: rest := by
        rw [← List.isPrefixOf_iff_prefix]; simp_all
      cases h : splitFirstInfix sep rest with
      | some p => simp_all
      | none => simp_all

theorem containsSub_iff (pat s : String) :
    containsSub pat s = true ↔ pat.toList <:+: s.toList := by
  rw [containsSub, splitFirstInfix_isSome_iff]

/-! ### The dimension tables and fact tables (`app/models`)

Database rows are modelled as structures; the UUID primary keys that
PostgreSQL generates are modelled as naturals drawn from a fresh-id
counter.  Timestamps are modelled only as the fact of having been set. -/

/-- A row of the `agencies` dimension table. -/
structure Agency where
  id : ℕ
  omb_code : String
  title : String
  abbreviation : Option String
deriving DecidableEq

/-- A row of the `bureaus` dimension table. -/
structure Bureau where
  id : ℕ
  agency_id : ℕ
  omb_code : String
  title : String
  abbreviation : Option String
deriving DecidableEq

/-- A row of the `accounts` dimension table. -/
structure Account where
  id : ℕ
  bureau_id : ℕ
  omb_account_code : String
  title : String
  description : String
deriving DecidableEq

/-- A row of the `budget_functions` dimension table. -/
structure BudgetFunction where
  id : ℕ
  code : String
  title : String
  description : String
deriving DecidableEq

/-- A row of the `budget_subfunctions` dimension table. -/
structure BudgetSubfunction where
  id : ℕ
  function_id : ℕ
  code : String
  title : String
  description : String
deriving DecidableEq

/-- A row of the `object_classes` dimension table. -/
structure ObjectClass where
  id : ℕ
  code : String
  title : String
  group_code : String
  description : String
deriving DecidableEq

/-- A row of the `outlays` fact table. -/
structure Outlay where
  account_id : ℕ
  function_id : ℕ
  subfunction_id : ℕ
  object_class_id : ℕ
  fiscal_year : ℕ
  period : String
  amount : ℤ
  data_source : String
  import_batch_id : ℕ
  confidence_score : ℚ
deriving DecidableEq

/-- A row of the `import_batches` ledger table. -/
structure ImportBatch where
  id : ℕ
  data_source : String
  total_rows : ℕ
  successful_imports : ℕ
  failed_imports : ℕ
  warnings : ℕ
  status : String
  error_log : Option String
  endTimeSet : Bool
deriving DecidableEq

/-- One CSV row: the ten named dimension fields plus the remaining
columns as header/cell pairs (from which the amount columns are
selected dynamically). -/
structure Row where
  agencyCode : String
  agencyTitle : String
  bureauCode : String
  bureauTitle : String
  accountCode : String
  accountTitle : String
  functionField : String
  subfunctionField : String
  objClassCode : String
  objClassTitle : String
  amounts : List (String × Cell)
deriving DecidableEq

/-- A row of the `raw_import_data` provenance table (the JSON dump of the
source row is modelled by the row value itself). -/
structure RawImportData where
  import_batch_id : ℕ
  row_number : ℕ
  raw : Row
  import_status : String
  error_message : Option String
deriving DecidableEq

/-- The persistent store reachable through the SQLAlchemy session. -/
structure Db where
  agencies : List Agency
  bureaus : List Bureau
  accounts : List Account
  functions : List BudgetFunction
  subfunctions : List BudgetSubfunction
  objectClasses : List ObjectClass
  outlays : List Outlay
  rawImports : List RawImportData
  batches : List ImportBatch
  nextId : ℕ
deriving DecidableEq

/-- The state of one `OBJCLASSParser` run: the session-backed store, the
six run-local mapping caches (Python dicts as association lists, newest
binding first), the open batch id and the `stats` counters. -/
structure RunState where
  db : Db
  dataSource : String
  batchId : ℕ
  agencyCache : List (String × Agency)
  bureauCache : List (String × Bureau)
  accountCache : List (String × Account)
  functionCache : List (String × BudgetFunction)
  subfunctionCache : List (String × BudgetSubfunction)
  objectClassCache : List (String × ObjectClass)
  statSuccess : ℕ
  statFailed : ℕ
  statWarnings : ℕ
deriving DecidableEq

/-- Lookup in a run-local cache (Python `key in dict` plus indexing). -/
def alookup {α : Type} (k : String) : List (String × α) → Option α
  | [] => none
  | p :: rest => if p.1 = k then some p.2 else alookup k rest

/-- Last index of a character in a list (Python `str.rfind`). -/
def lastIdxOf (c : Char) (l : List Char) : Option ℕ :=
  match (l.reverse.findIdx? (fun x => x = c)) with
  | some k => some (l.length - 1 - k)
  | none => none

/-- Embeds `OBJCLASSParser._extract_abbreviation`: the stripped text
between the last `'('` and the last `')'`, when both occur in that
order. -/
def extractAbbreviation (title : String) : Option String :=
  let l := title.toList
  match lastIdxOf '(' l, lastIdxOf ')' l with
  | some i, some j =>
    if i + 1 < j then some (pyStrip (String.mk ((l.drop (i + 1)).take (j - (i + 1)))))
    else none
  | _, _ => none

/-- Embeds `get_or_create_agency`: run-local cache, then store lookup by
`omb_code`, then construction and immediate persistence. -/
def getOrCreateAgency (rs : RunState) (code title : String) : Agency × RunState :=
  match alookup code rs.agencyCache with
  | some a => (a, rs)
  | none =>
    match rs.db.agencies.find? (fun a => a.omb_code = code) with
    | some a => (a, { rs with agencyCache := (code, a) :: rs.agencyCache })
    | none =>
      let a : Agency :=
        { id := rs.db.nextId, omb_code := code, title := pyStrip title,
          abbreviation := extractAbbreviation title }
      (a, { rs with
              db := { rs.db with agencies := rs.db.agencies ++ [a], nextId := rs.db.nextId + 1 },
              agencyCache := (code, a) :: rs.agencyCache })

/-- Embeds `get_or_create_bureau`: cached under the string key
`f"{agency.omb_code}:{code}"`, store lookup by `(agency_id, omb_code)`. -/
def getOrCreateBureau (rs : RunState) (agency : Agency) (code title : String) :
    Bureau × RunState :=
  let key := agency.omb_code ++ ":" ++ code
  match alookup key rs.bureauCache with
  | some b => (b, rs)
  | none =>
    match rs.db.bureaus.find? (fun b => b.agency_id = agency.id ∧ b.omb_code = code) with
    | some b => (b, { rs with bureauCache := (key, b) :: rs.bureauCache })
    | none =>
      let b : Bureau :=
        { id := rs.db.nextId, agency_id := agency.id, omb_code := code,
          title := pyStrip title, abbreviation := extractAbbreviation title }
      (b, { rs with
              db := { rs.db with bureaus := rs.db.bureaus ++ [b], nextId := rs.db.nextId + 1 },
              bureauCache := (key, b) :: rs.bureauCache })

/-- Embeds `get_or_create_account`: cached under
`f"{bureau.omb_code}:{code}"`, store lookup by `(bureau_id, code)`. -/
def getOrCreateAccount (rs : RunState) (bureau : Bureau) (code title : String) :
    Account × RunState :=
  let key := bureau.omb_code ++ ":" ++ code
  match alookup key rs.accountCache with
  | some a => (a, rs)
  | none =>
    match rs.db.accounts.find? (fun a => a.bureau_id = bureau.id ∧ a.omb_account_code = code) with
    | some a => (a, { rs with accountCache := (key, a) :: rs.accountCache })
    | none =>
      let a : Account :=
        { id := rs.db.nextId, bureau_id := bureau.id, omb_account_code := code,
          title := pyStrip title, description := pyStrip title }
      (a, { rs with
              db := { rs.db with accounts := rs.db.accounts ++ [a], nextId := rs.db.nextId + 1 },
              accountCache := (key, a) :: rs.accountCache })

/-- Embeds `get_or_create_function`: cached and stored under `code`. -/
def getOrCreateFunction (rs : RunState) (code title : String) :
    BudgetFunction × RunState :=
  match alookup code rs.functionCache with
  | some f => (f, rs)
  | none =>
    match rs.db.functions.find? (fun f => f.code = code) with
    | some f => (f, { rs with functionCache := (code, f) :: rs.functionCache })
    | none =>
      let f : BudgetFunction :=
        { id := rs.db.nextId, code := code, title := pyStrip title,
          description := pyStrip title }
      (f, { rs with
              db := { rs.db with functions := rs.db.functions ++ [f], nextId := rs.db.nextId + 1 },
              functionCache := (code, f) :: rs.functionCache })

/-- Embeds `get_or_create_subfunction`: cached under
`f"{function.code}:{code}"`, store lookup by `(function_id, code)`. -/
def getOrCreateSubfunction (rs : RunState) (function : BudgetFunction) (code title : String) :
    BudgetSubfunction × RunState :=
  let key := function.code ++ ":" ++ code
  match alookup key rs.subfunctionCache with
  | some sf => (sf, rs)
  | none =>
    match rs.db.subfunctions.find? (fun sf => sf.function_id = function.id ∧ sf.code = code) with
    | some sf => (sf, { rs with subfunctionCache := (key, sf) :: rs.subfunctionCache })
    | none =>
      let sf : BudgetSubfunction :=
        { id := rs.db.nextId, function_id := function.id, code := code,
          title := pyStrip title, description := pyStrip title }
      let db := { rs.db with subfunctions := rs.db.subfunctions ++ [sf], nextId := rs.db.nextId + 1 }
      (sf, { rs with db := db, subfunctionCache := (key, sf) :: rs.subfunctionCache })

/-- Embeds `get_or_create_object_class`: cached and stored under `code`;
the group code is the prefix of `code` before the first `'.'`. -/
def getOrCreateObjectClass (rs : RunState) (code title : String) :
    ObjectClass × RunState :=
  match alookup code rs.objectClassCache with
  | some oc => (oc, rs)
  | none =>
    match rs.db.objectClasses.find? (fun oc => oc.code = code) with
    | some oc => (oc, { rs with objectClassCache := (code, oc) :: rs.objectClassCache })
    | none =>
      let oc : ObjectClass :=
        { id := rs.db.nextId, code := code, title := pyStrip title,
          group_code :=
            if code.toList.contains '.' then String.mk (code.toList.takeWhile (fun c => c ≠ '.'))
            else code,
          description := pyStrip title }
      let db := { rs.db with objectClasses := rs.db.objectClasses ++ [oc], nextId := rs.db.nextId + 1 }
      (oc, { rs with db := db, objectClassCache := (code, oc) :: rs.objectClassCache })

/-! ### The row processor (`_process_row`) and the run (`process_csv`)

The pure embedding cannot raise exceptions by itself, so the `except
Exception` handlers of the source are exercised through an explicit fault
oracle: a row fault `(k, msg)` makes dimension-resolution stage `k`
(0 = agency … 5 = object class) raise with message `msg`, exactly where a
database or data error would surface in the source; a run fault models an
uncaught exception after the batch is opened. -/

/-- The six resolved dimension entities of one row. -/
structure Dims where
  agency : Agency
  bureau : Bureau
  account : Account
  function : BudgetFunction
  subfunction : BudgetSubfunction
  objectClass : ObjectClass
deriving DecidableEq

/-- The fault injected at resolution stage `k`, if any. -/
def stageFault (fault : Option (ℕ × String)) (k : ℕ) : Option String :=
  match fault with
  | some (j, m) => if j = k then some m else none
  | none => none

/-- The dimension-resolution block of `_process_row` (the `try` body up to
`get_or_create_object_class`), returning the partial state reached even
when a stage raises. -/
def resolveDims (rs : RunState) (row : Row) (fault : Option (ℕ × String)) :
    Except String Dims × RunState :=
  match stageFault fault 0 with
  | some m => (.error m, rs)
  | none =>
    let pa := getOrCreateAgency rs (pyStrip row.agencyCode) (pyStrip row.agencyTitle)
    match stageFault fault 1 with
    | some m => (.error m, pa.2)
    | none =>
      let pb := getOrCreateBureau pa.2 pa.1 (pyStrip row.bureauCode) (pyStrip row.bureauTitle)
      match stageFault fault 2 with
      | some m => (.error m, pb.2)
      | none =>
        let pc := getOrCreateAccount pb.2 pb.1 (pyStrip row.accountCode) (pyStrip row.accountTitle)
        match stageFault fault 3 with
        | some m => (.error m, pc.2)
        | none =>
          let pf := parseFunctionField row.functionField
          let pd := getOrCreateFunction pc.2 pf.1 pf.2
          match stageFault fault 4 with
          | some m => (.error m, pd.2)
          | none =>
            let psf := parseFunctionField row.subfunctionField
            let pe := getOrCreateSubfunction pd.2 pd.1 psf.1 psf.2
            match stageFault fault 5 with
            | some m => (.error m, pe.2)
            | none =>
              let pg := getOrCreateObjectClass pe.2 (pyStrip row.objClassCode) (pyStrip row.objClassTitle)
              (.ok ⟨pa.1, pb.1, pc.1, pd.1, pe.1, pg.1⟩, pg.2)

/-- The Outlay record built for one nonzero amount cell. -/
def mkOutlay (ds : String) (batchId : ℕ) (dims : Dims) (col : String) (a : ℤ) : Outlay :=
  { account_id := dims.account.id, function_id := dims.function.id,
    subfunction_id := dims.subfunction.id, object_class_id := dims.objectClass.id,
    fiscal_year := extractFiscalYear col, period := extractPeriod col,
    amount := a, data_source := ds, import_batch_id := batchId,
    confidence_score := 1 }

/-- The amount loop of `_process_row`, left to right over the amount
columns: a cell parsing to no value or zero is skipped, a nonzero value
stages one Outlay (`session.add`), and an `OverflowError` escaping
`_parse_amount` aborts the loop — the Outlays staged before it remain,
and the error message is carried to the row's `except` handler. -/
def amountLoop (ds : String) (batchId : ℕ) (dims : Dims) :
    List (String × Cell) → List Outlay × Option String
  | [] => ([], none)
  | p :: rest =>
    match parseAmount p.2 with
    | .error msg => ([], some msg)
    | .ok none => amountLoop ds batchId dims rest
    | .ok (some a) =>
      if a ≠ 0 then
        let r := amountLoop ds batchId dims rest
        (mkOutlay ds batchId dims p.1 a :: r.1, r.2)
      else amountLoop ds batchId dims rest

/-- Embeds `_process_row`: resolve dimensions, run the amount loop, and
record row provenance with per-row status and stats; an exception either
from resolution or from the amount loop marks the row failed (Outlays
staged before an amount-loop abort are still written). -/
def processRow (rs : RunState) (idx : ℕ) (row : Row) (fault : Option (ℕ × String)) :
    RunState :=
  match resolveDims rs row fault with
  | (.error msg, rs1) =>
    let raw : RawImportData :=
      { import_batch_id := rs1.batchId, row_number := idx + 1, raw := row,
        import_status := "failed", error_message := some msg }
    { rs1 with db := { rs1.db with rawImports := rs1.db.rawImports ++ [raw] },
               statFailed := rs1.statFailed + 1 }
  | (.ok dims, rs1) =>
    let r := amountLoop rs1.dataSource rs1.batchId dims
      (row.amounts.filter (fun p => isAmountCol p.1))
    match r.2 with
    | some msg =>
      let raw : RawImportData :=
        { import_batch_id := rs1.batchId, row_number := idx + 1, raw := row,
          import_status := "failed", error_message := some msg }
      let db := { rs1.db with outlays := rs1.db.outlays ++ r.1, rawImports := rs1.db.rawImports ++ [raw] }
      { rs1 with db := db, statFailed := rs1.statFailed + 1 }
    | none =>
      let raw : RawImportData :=
        { import_batch_id := rs1.batchId, row_number := idx + 1, raw := row,
          import_status := "success", error_message := none }
      let db := { rs1.db with outlays := rs1.db.outlays ++ r.1, rawImports := rs1.db.rawImports ++ [raw] }
      { rs1 with db := db, statSuccess := rs1.statSuccess + 1 }

/-- The row loop of `process_csv` (`for idx, row in df.iterrows()`). -/
def runRowsFrom (rs : RunState) (idx : ℕ) (rows : List Row)
    (rowFaults : ℕ → Option (ℕ × String)) : RunState :=
  match rows with
  | [] => rs
  | r :: rest => runRowsFrom (processRow rs idx r (rowFaults idx)) (idx + 1) rest rowFaults

/-- The parsed-table input of a run, or the failure of `pd.read_csv`. -/
inductive CsvInput where
  | unreadable (err : String) : CsvInput
  | table (headers : List String) (rows : List Row) : CsvInput
deriving DecidableEq

/-- Embeds `create_import_batch`: a fresh ledger row with zero counts and
status `"processing"`. -/
def initialBatch (ds : String) (bid nrows : ℕ) : ImportBatch :=
  { id := bid, data_source := ds, total_rows := nrows,
    successful_imports := 0, failed_imports := 0, warnings := 0,
    status := "processing", error_log := none, endTimeSet := false }

/-- Point update of one batch row in the ledger. -/
def updateBatch (db : Db) (bid : ℕ) (f : ImportBatch → ImportBatch) : Db :=
  { db with batches := db.batches.map (fun b => if b.id = bid then f b else b) }

/-- Embeds `_finalize_import_batch`: final counts from `stats`, status
`"completed"`, end timestamp. -/
def finalizeBatch (rs : RunState) : Db :=
  updateBatch rs.db rs.batchId (fun b =>
    { b with successful_imports := rs.statSuccess, failed_imports := rs.statFailed,
             warnings := rs.statWarnings, status := "completed", endTimeSet := true })

/-- The `except` block of `process_csv` when a batch is open: status
`"failed"`, exception text in the error log, end timestamp. -/
def markBatchFailed (db : Db) (bid : ℕ) (err : String) : Db :=
  updateBatch db bid (fun b =>
    { b with status := "failed", error_log := some err, endTimeSet := true })

/-- The batch row with the given id. -/
def lookupBatch (db : Db) (bid : ℕ) : Option ImportBatch :=
  db.batches.find? (fun b => b.id = bid)

/-- Embeds `process_csv`: load, validate, open the batch, run the row
loop, finalize; `runFault` models an uncaught exception raised after the
batch was opened. -/
def processCsv (ds : String) (db : Db) (input : CsvInput)
    (runFault : Option String) (rowFaults : ℕ → Option (ℕ × String)) : Bool × Db :=
  match input with
  | .unreadable _ => (false, db)
  | .table headers rows =>
    if validateCsvStructure headers then
      let bid := db.nextId
      let batch := initialBatch ds bid rows.length
      let db1 : Db := { db with batches := db.batches ++ [batch], nextId := db.nextId + 1 }
      match runFault with
      | some err => (false, markBatchFailed db1 bid err)
      | none =>
        let rs0 : RunState :=
          { db := db1, dataSource := ds, batchId := bid,
            agencyCache := [], bureauCache := [], accountCache := [],
            functionCache := [], subfunctionCache := [], objectClassCache := [],
            statSuccess := 0, statFailed := 0, statWarnings := 0 }
        let rsF := runRowsFrom rs0 0 rows rowFaults
        (true, finalizeBatch rsF)
    else (false, db)

/-- The empty persistent store. -/
def emptyDb : Db :=
  { agencies := [], bureaus := [], accounts := [], functions := [],
    subfunctions := [], objectClasses := [], outlays := [], rawImports := [],
    batches := [], nextId := 1 }

/-! ### Lemmas about the substring splitter -/

theorem splitFirstInfix_of_first (sep : List Char) :
    ∀ (pre : List Char) (l post : List Char),
      l = pre ++ sep ++ post →
      (∀ i, i < pre.length → ¬ sep <+: l.drop i) →
      splitFirstInfix sep l = some (pre, post) := by
  intro pre
  induction pre with
  | nil =>
    intro l post hl _
    subst hl
    simp only [List.nil_append]
    cases sep with
    | nil =>
      cases post with
      | nil => rfl
      | cons c rest =>
        show splitFirstInfix [] (c :: rest) = some ([], c :: rest)
        rw [splitFirstInfix]
        simp [List.isPrefixOf]
    | cons s ss =>
      show splitFirstInfix (s :: ss) (s :: (ss ++ post)) = some ([], post)
      rw [splitFirstInfix]
      have hpre : (s :: ss).isPrefixOf (s :: (ss ++ post)) = true := by
        rw [ List.isPrefixOf_iff_prefix]
        exact List.prefix_append (s :: ss) post
      have hdrop : (s :: (ss ++ post)).drop (s :: ss).length = post := by
        have h2 : s :: (ss ++ post) = (s :: ss) ++ post := rfl
        rw [h2, List.drop_left]
      simp [hpre, hdrop]
  | cons a pre ih =>
    intro l post hl hfirst
    subst hl
    have hl0 : ((a :: pre) ++ sep ++ post) = a :: (pre ++ sep ++ post) := by simp
    rw [hl0, splitFirstInfix]
    have hnp : sep.isPrefixOf (a :: (pre ++ sep ++ post)) = false := by
      have := hfirst 0 (by simp)
      simp only [List.drop_zero] at this
      rw [← Bool.not_eq_true, List.isPrefixOf_iff_prefix]
      rw [hl0] at this
      exact this
    rw [hnp]
    simp only [Bool.false_eq_true, if_false]
    have hrec := ih (pre ++ sep ++ post) post rfl (by
      intro i hi
      have := hfirst (i + 1) (by simpa using Nat.succ_lt_succ hi)
      simpa using this)
    rw [hrec]

theorem splitFirstInfix_none_iff (sep l : List Char) :
    splitFirstInfix sep l = none ↔ ¬ sep <:+: l := by
  rw [← splitFirstInfix_isSome_iff]
  cases splitFirstInfix sep l <;> simp

/-! ### C7, C8, C6 -/

/-- C7: the composite field parser splits the stripped input at the first
occurrence of the literal `" - "`, stripping both sides; when `" - "` is
absent it returns the whole stripped input as both code and name;
`"501 - Education, Training, Employment"` gives code `"501"` and name
`"Education, Training, Employment"`, and `"GENERAL"` gives
(`"GENERAL"`, `"GENERAL"`). -/
theorem function_field_split :
    (∀ v : String, ¬ (" - ".toList <:+: (pyStrip v).toList) →
      parseFunctionField v = (pyStrip v, pyStrip v)) ∧
    (∀ (v : String) (pre post : List Char),
      (pyStrip v).toList = pre ++ " - ".toList ++ post →
      (∀ i, i < pre.length → ¬ " - ".toList <+: ((pyStrip v).toList.drop i)) →
      parseFunctionField v = (pyStrip (String.mk pre), pyStrip (String.mk post))) ∧
    parseFunctionField "501 - Education, Training, Employment" =
      ("501", "Education, Training, Employment") ∧
    parseFunctionField "GENERAL" = ("GENERAL", "GENERAL") := by
  refine ⟨?_, ?_, by decide, by decide⟩
  · intro v hni
    rw [parseFunctionField]
    rw [(splitFirstInfix_none_iff _ _).mpr hni]
  · intro v pre post hsplit hfirst
    rw [parseFunctionField]
    rw [splitFirstInfix_of_first (" - ".toList) pre (pyStrip v).toList post hsplit hfirst]

/-- C7 witness: the general clauses evaluated at the two example inputs. -/
theorem function_field_split_witness :
    parseFunctionField "501 - Education, Training, Employment" =
      ("501", "Education, Training, Employment") ∧
    parseFunctionField "GENERAL" = ("GENERAL", "GENERAL") := by
  constructor
  · exact function_field_split.2.1 "501 - Education, Training, Employment"
      "501".toList "Education, Training, Employment".toList (by decide) (by decide)
  · exact function_field_split.1 "GENERAL" (by decide)

/-- C8: the period extractor returns `"PY"` when the header contains the
substring `"PY"`, else `"CY"` when it contains `"CY"`, else `"BY"` when it
contains `"BY"`, else the default `"CY"`; `"2026 PY CY Amount"` gives
`"PY"`. -/
theorem period_extraction_priority :
    (∀ col : String, "PY".toList <:+: col.toList → extractPeriod col = "PY") ∧
    (∀ col : String, ¬ "PY".toList <:+: col.toList → "CY".toList <:+: col.toList →
      extractPeriod col = "CY") ∧
    (∀ col : String, ¬ "PY".toList <:+: col.toList → ¬ "CY".toList <:+: col.toList →
      "BY".toList <:+: col.toList → extractPeriod col = "BY") ∧
    (∀ col : String, ¬ "PY".toList <:+: col.toList → ¬ "CY".toList <:+: col.toList →
      ¬ "BY".toList <:+: col.toList → extractPeriod col = "CY") ∧
    extractPeriod "2026 PY CY Amount" = "PY" := by
  refine ⟨?_, ?_, ?_, ?_, by decide⟩
  · intro col h
    rw [extractPeriod, if_pos ((containsSub_iff "PY" col).mpr h)]
  · intro col h1 h2
    rw [extractPeriod]
    rw [if_neg (fun hc => h1 ((containsSub_iff "PY" col).mp hc))]
    rw [if_pos ((containsSub_iff "CY" col).mpr h2)]
  · intro col h1 h2 h3
    rw [extractPeriod]
    rw [if_neg (fun hc => h1 ((containsSub_iff "PY" col).mp hc))]
    rw [if_neg (fun hc => h2 ((containsSub_iff "CY" col).mp hc))]
    rw [if_pos ((containsSub_iff "BY" col).mpr h3)]
  · intro col h1 h2 h3
    rw [extractPeriod]
    rw [if_neg (fun hc => h1 ((containsSub_iff "PY" col).mp hc))]
    rw [if_neg (fun hc => h2 ((containsSub_iff "CY" col).mp hc))]
    rw [if_neg (fun hc => h3 ((containsSub_iff "BY" col).mp hc))]

/-- C8 witness: the priority clause evaluated on the example header. -/
theorem period_extraction_priority_witness :
    extractPeriod "2026 PY CY Amount" = "PY" :=
  period_extraction_priority.1 "2026 PY CY Amount" (by decide)

/-- C6: the structural validator passes exactly when all ten required
headers are present and some header contains `"PY"`, `"CY"` or `"BY"`;
when it fails the run returns without opening a batch (the store is
returned unchanged). -/
theorem validator_iff_and_gate :
    (∀ headers : List String,
      validateCsvStructure headers = true ↔
        ((∀ c ∈ requiredColumns, c ∈ headers) ∧
          ∃ h ∈ headers, ("PY".toList <:+: h.toList ∨ "CY".toList <:+: h.toList ∨
            "BY".toList <:+: h.toList))) ∧
    (∀ (ds : String) (db : Db) (headers : List String) (rows : List Row)
        (runFault : Option String) (rowFaults : ℕ → Option (ℕ × String)),
      validateCsvStructure headers = false →
      processCsv ds db (.table headers rows) runFault rowFaults = (false, db)) := by
  constructor
  · intro headers
    rw [validateCsvStructure]
    simp only [ne_eq, ite_not]
    constructor
    · intro h
      split at h
      · next hmiss =>
        split at h
        · exact absurd h (by simp)
        · next hamt =>
          constructor
          · intro c hc
            have := List.filter_eq_nil_iff.mp hmiss c hc
            simpa [List.contains_iff_exists_mem_beq, beq_iff_eq] using this
          · rcases List.exists_mem_of_ne_nil _ hamt with ⟨x, hx⟩
            refine ⟨x, (List.mem_filter.mp hx).1, ?_⟩
            have := (List.mem_filter.mp hx).2
            simpa [isAmountCol, containsSub_iff, or_assoc] using this
      · exact absurd h (by simp)
    · rintro ⟨hreq, x, hxmem, hxamt⟩
      have hmiss : requiredColumns.filter (fun c => !(headers.contains c)) = [] := by
        rw [List.filter_eq_nil_iff]
        intro c hc
        simp [List.contains_iff_exists_mem_beq, beq_iff_eq]
        exact hreq c hc
      have hamt : headers.filter isAmountCol ≠ [] := by
        intro hnil
        have := List.filter_eq_nil_iff.mp hnil x hxmem
        apply this
        simpa [isAmountCol, containsSub_iff, or_assoc] using hxamt
      rw [hmiss]
      simp [hamt]
  · intro ds db headers rows runFault rowFaults hv
    simp [processCsv, hv]

/-- C6 witness: the validator accepts the required headers plus one
amount column, rejects the empty header list, and on rejection the run
leaves the empty store untouched. -/
theorem validator_iff_and_gate_witness :
    validateCsvStructure (requiredColumns ++ ["2026 PY Amount"]) = true ∧
    processCsv "OBJCLASS_2026" emptyDb (.table [] []) none (fun _ => none) =
      (false, emptyDb) := by
  constructor
  · exact (validator_iff_and_gate.1 (requiredColumns ++ ["2026 PY Amount"])).mpr
      ⟨by decide, "2026 PY Amount", by decide, by decide⟩
  · exact validator_iff_and_gate.2 "OBJCLASS_2026" emptyDb [] [] none (fun _ => none)
      (by decide)

/-! ### C1: the amount parser -/

/-- C1 counterexamples: the cell `"1.015"` parses as the decimal
`203 / 200`; the claimed transform (exact decimal times 1000, truncated)
gives `1015`, but `_parse_amount` returns `1014`, because
`float("1.015") * 1000` in binary64 arithmetic is just below `1015`.
And the cell `"inf"` — not a decimal number, so the claim demands
no-value-no-exception — makes `_parse_amount` raise an uncaught
`OverflowError` to its caller (`int(inf)`; the `except` clause catches
only `ValueError`/`TypeError`). -/
theorem amount_parse_decimal_cex :
    parseLit (cleanAmount "1.015".toList) = some (.num (203 / 200 : ℚ)) ∧
    truncQ ((203 / 200 : ℚ) * 1000) = 1015 ∧
    parseAmount (.str "1.015") = .ok (some 1014) ∧
    parseLit (cleanAmount "inf".toList) = some PyLit.inf ∧
    parseAmount (.str "inf") = .error overflowMsg :=
  ⟨by decide, by decide, by decide, by decide, by decide⟩

/-- C1 (amended): missing cells, blank cleaned strings, text outside the
`float()` grammar, and `nan` all give no value and no exception; a cell
parsing to an infinite float (the words `inf`/`infinity` or a literal
overflowing binary64, directly or after the multiplication by 1000)
raises `OverflowError` to the caller; a cell parsing to a finite decimal
`q` gives `q` rounded to the nearest binary64 float, multiplied by 1000
in binary64 arithmetic, truncated toward zero — which agrees with the
exact decimal transform whenever both roundings are exact, as for
`"1,234.50" ↦ 1234500` (and `"1_000" ↦ 1000000` via PEP-515
underscores). -/
theorem amount_parse_characterization :
    parseAmount .nan = .ok none ∧
    (∀ s : String, cleanAmount s.toList = [] → parseAmount (.str s) = .ok none) ∧
    (∀ s : String, parseLit (cleanAmount s.toList) = none → parseAmount (.str s) = .ok none) ∧
    (∀ s : String, parseLit (cleanAmount s.toList) = some PyLit.nan →
      parseAmount (.str s) = .ok none) ∧
    (∀ s : String, parseLit (cleanAmount s.toList) = some PyLit.inf ∨
        parseLit (cleanAmount s.toList) = some PyLit.neginf →
      parseAmount (.str s) = .error overflowMsg) ∧
    (∀ (s : String) (q : ℚ), parseLit (cleanAmount s.toList) = some (.num q) →
      overflow52 q = true → parseAmount (.str s) = .error overflowMsg) ∧
    (∀ (s : String) (q : ℚ), parseLit (cleanAmount s.toList) = some (.num q) →
      overflow52 q = false → overflow52 (rnd52 q * 1000) = true →
      parseAmount (.str s) = .error overflowMsg) ∧
    (∀ (s : String) (q : ℚ), parseLit (cleanAmount s.toList) = some (.num q) →
      overflow52 q = false → overflow52 (rnd52 q * 1000) = false →
      parseAmount (.str s) = .ok (some (truncQ (rnd52 (rnd52 q * 1000))))) ∧
    parseAmount (.str "1,234.50") = .ok (some 1234500) ∧
    parseAmount (.str "1_000") = .ok (some 1000000) ∧
    parseAmount (.str "") = .ok none ∧
    parseAmount (.str "0") = .ok (some 0) := by
  have hnil : ∀ (s : String) (v : PyLit),
      parseLit (cleanAmount s.data) = some v → ¬ cleanAmount s.data = [] := by
    intro s v hv hc
    rw [hc, show parseLit ([] : List Char) = none from rfl] at hv
    exact Option.noConfusion hv
  refine ⟨rfl, ?_, ?_, ?_, ?_, ?_, ?_, ?_, by decide, by decide, by decide, by decide⟩
  · intro s h
    have h0 : cleanAmount s.data = [] := h
    simp [parseAmount, h0]
  · intro s h
    have h0 : parseLit (cleanAmount s.data) = none := h
    by_cases hc : cleanAmount s.data = []
    · simp [parseAmount, hc]
    · simp [parseAmount, hc, h0]
  · intro s h
    have h0 : parseLit (cleanAmount s.data) = some PyLit.nan := h
    have hc := hnil s _ h0
    simp [parseAmount, hc, h0]
  · intro s h
    rcases h with h | h
    · have h0 : parseLit (cleanAmount s.data) = some PyLit.inf := h
      have hc := hnil s _ h0
      simp [parseAmount, hc, h0]
    · have h0 : parseLit (cleanAmount s.data) = some PyLit.neginf := h
      have hc := hnil s _ h0
      simp [parseAmount, hc, h0]
  · intro s q h hov
    have h0 : parseLit (cleanAmount s.data) = some (.num q) := h
    have hc := hnil s _ h0
    simp [parseAmount, hc, h0, hov]
  · intro s q h hov1 hov2
    have h0 : parseLit (cleanAmount s.data) = some (.num q) := h
    have hc := hnil s _ h0
    simp [parseAmount, hc, h0, hov1, hov2]
  · intro s q h hov1 hov2
    have h0 : parseLit (cleanAmount s.data) = some (.num q) := h
    have hc := hnil s _ h0
    simp [parseAmount, hc, h0, hov1, hov2]

/-- C1 witness: the finite-value clause at `"1,234.50"` (decimal
`2469 / 2`, binary64-exact), the overflow clause at `"inf"`, and the
no-value clause at `"xyz"`. -/
theorem amount_parse_characterization_witness :
    parseAmount (.str "1,234.50") = .ok (some (truncQ (rnd52 (rnd52 (2469 / 2 : ℚ) * 1000)))) ∧
    parseAmount (.str "inf") = .error overflowMsg ∧
    parseAmount (.str "xyz") = .ok none := by
  refine ⟨?_, ?_, ?_⟩
  · exact amount_parse_characterization.2.2.2.2.2.2.2.1 "1,234.50" (2469 / 2 : ℚ)
      (by decide) (by decide) (by decide)
  · exact amount_parse_characterization.2.2.2.2.1 "inf" (Or.inl (by decide))
  · exact amount_parse_characterization.2.2.1 "xyz" (by decide)

/-! ### C3: idempotence of the get-or-create resolvers -/

theorem agencyCacheHit (rs : RunState) (code t : String) (a : Agency)
    (h : alookup code rs.agencyCache = some a) :
    getOrCreateAgency rs code t = (a, rs) := by
  rw [getOrCreateAgency, h]

theorem agencyCache_after (rs : RunState) (code t : String) :
    alookup code (getOrCreateAgency rs code t).2.agencyCache =
      some (getOrCreateAgency rs code t).1 := by
  rw [getOrCreateAgency]
  cases h1 : alookup code rs.agencyCache with
  | some a => exact h1
  | none =>
    cases h2 : rs.db.agencies.find? (fun x => x.omb_code = code) with
    | some a => simp [alookup]
    | none => simp [alookup]

theorem functionCacheHit (rs : RunState) (code t : String) (f : BudgetFunction)
    (h : alookup code rs.functionCache = some f) :
    getOrCreateFunction rs code t = (f, rs) := by
  rw [getOrCreateFunction, h]

theorem functionCache_after (rs : RunState) (code t : String) :
    alookup code (getOrCreateFunction rs code t).2.functionCache =
      some (getOrCreateFunction rs code t).1 := by
  rw [getOrCreateFunction]
  cases h1 : alookup code rs.functionCache with
  | some f => exact h1
  | none =>
    cases h2 : rs.db.functions.find? (fun x => x.code = code) with
    | some f => simp [alookup]
    | none => simp [alookup]

theorem bureauCacheHit (rs : RunState) (ag : Agency) (code t : String) (b : Bureau)
    (h : alookup (ag.omb_code ++ ":" ++ code) rs.bureauCache = some b) :
    getOrCreateBureau rs ag code t = (b, rs) := by
  simp only [getOrCreateBureau]
  rw [h]

theorem bureauCache_after (rs : RunState) (ag : Agency) (code t : String) :
    alookup (ag.omb_code ++ ":" ++ code) (getOrCreateBureau rs ag code t).2.bureauCache =
      some (getOrCreateBureau rs ag code t).1 := by
  simp only [getOrCreateBureau]
  cases h1 : alookup (ag.omb_code ++ ":" ++ code) rs.bureauCache with
  | some b => exact h1
  | none =>
    cases h2 : rs.db.bureaus.find? (fun x => x.agency_id = ag.id ∧ x.omb_code = code) with
    | some b => simp [alookup]
    | none => simp [alookup]

theorem accountCacheHit (rs : RunState) (bu : Bureau) (code t : String) (a : Account)
    (h : alookup (bu.omb_code ++ ":" ++ code) rs.accountCache = some a) :
    getOrCreateAccount rs bu code t = (a, rs) := by
  simp only [getOrCreateAccount]
  rw [h]

theorem accountCache_after (rs : RunState) (bu : Bureau) (code t : String) :
    alookup (bu.omb_code ++ ":" ++ code) (getOrCreateAccount rs bu code t).2.accountCache =
      some (getOrCreateAccount rs bu code t).1 := by
  simp only [getOrCreateAccount]
  cases h1 : alookup (bu.omb_code ++ ":" ++ code) rs.accountCache with
  | some a => exact h1
  | none =>
    cases h2 : rs.db.accounts.find? (fun x => x.bureau_id = bu.id ∧ x.omb_account_code = code) with
    | some a => simp [alookup]
    | none => simp [alookup]

theorem subfunctionCacheHit (rs : RunState) (fn : BudgetFunction) (code t : String)
    (sf : BudgetSubfunction)
    (h : alookup (fn.code ++ ":" ++ code) rs.subfunctionCache = some sf) :
    getOrCreateSubfunction rs fn code t = (sf, rs) := by
  simp only [getOrCreateSubfunction]
  rw [h]

theorem subfunctionCache_after (rs : RunState) (fn : BudgetFunction) (code t : String) :
    alookup (fn.code ++ ":" ++ code)
        (getOrCreateSubfunction rs fn code t).2.subfunctionCache =
      some (getOrCreateSubfunction rs fn code t).1 := by
  simp only [getOrCreateSubfunction]
  cases h1 : alookup (fn.code ++ ":" ++ code) rs.subfunctionCache with
  | some sf => exact h1
  | none =>
    cases h2 : rs.db.subfunctions.find? (fun x => x.function_id = fn.id ∧ x.code = code) with
    | some sf => simp [alookup]
    | none => simp [alookup]

theorem objectClassCacheHit (rs : RunState) (code t : String) (oc : ObjectClass)
    (h : alookup code rs.objectClassCache = some oc) :
    getOrCreateObjectClass rs code t = (oc, rs) := by
  rw [getOrCreateObjectClass, h]

theorem objectClassCache_after (rs : RunState) (code t : String) :
    alookup code (getOrCreateObjectClass rs code t).2.objectClassCache =
      some (getOrCreateObjectClass rs code t).1 := by
  rw [getOrCreateObjectClass]
  cases h1 : alookup code rs.objectClassCache with
  | some oc => exact h1
  | none =>
    cases h2 : rs.db.objectClasses.find? (fun x => x.code = code) with
    | some oc => simp [alookup]
    | none => simp [alookup]

/-- C3: for every dimension kind, re-resolving an already-seen key
returns the first entity and leaves the whole run state unchanged; a
cache miss with a store hit (by the same composite key) returns the
stored entity and only populates the cache; an entity is constructed and
persisted only when both the cache and the store miss, and then exactly
one is appended carrying the requested key. -/
theorem dimension_get_or_create_idempotent :
    (∀ (rs : RunState) (code t1 t2 : String),
      getOrCreateAgency (getOrCreateAgency rs code t1).2 code t2 =
        getOrCreateAgency rs code t1) ∧
    (∀ (rs : RunState) (code t : String) (a : Agency),
      alookup code rs.agencyCache = none →
      rs.db.agencies.find? (fun x => x.omb_code = code) = some a →
      getOrCreateAgency rs code t =
        (a, { rs with agencyCache := (code, a) :: rs.agencyCache })) ∧
    (∀ (rs : RunState) (code t : String),
      alookup code rs.agencyCache = none →
      rs.db.agencies.find? (fun x => x.omb_code = code) = none →
      (getOrCreateAgency rs code t).2.db.agencies =
        rs.db.agencies ++ [(getOrCreateAgency rs code t).1] ∧
      (getOrCreateAgency rs code t).1.omb_code = code) ∧
    (∀ (rs : RunState) (ag : Agency) (code t1 t2 : String),
      getOrCreateBureau (getOrCreateBureau rs ag code t1).2 ag code t2 =
        getOrCreateBureau rs ag code t1) ∧
    (∀ (rs : RunState) (ag : Agency) (code t : String) (b : Bureau),
      alookup (ag.omb_code ++ ":" ++ code) rs.bureauCache = none →
      rs.db.bureaus.find? (fun x => x.agency_id = ag.id ∧ x.omb_code = code) = some b →
      getOrCreateBureau rs ag code t =
        (b, { rs with bureauCache := (ag.omb_code ++ ":" ++ code, b) :: rs.bureauCache })) ∧
    (∀ (rs : RunState) (ag : Agency) (code t : String),
      alookup (ag.omb_code ++ ":" ++ code) rs.bureauCache = none →
      rs.db.bureaus.find? (fun x => x.agency_id = ag.id ∧ x.omb_code = code) = none →
      (getOrCreateBureau rs ag code t).2.db.bureaus =
        rs.db.bureaus ++ [(getOrCreateBureau rs ag code t).1] ∧
      (getOrCreateBureau rs ag code t).1.agency_id = ag.id ∧
      (getOrCreateBureau rs ag code t).1.omb_code = code) ∧
    (∀ (rs : RunState) (bu : Bureau) (code t1 t2 : String),
      getOrCreateAccount (getOrCreateAccount rs bu code t1).2 bu code t2 =
        getOrCreateAccount rs bu code t1) ∧
    (∀ (rs : RunState) (bu : Bureau) (code t : String) (a : Account),
      alookup (bu.omb_code ++ ":" ++ code) rs.accountCache = none →
      rs.db.accounts.find? (fun x => x.bureau_id = bu.id ∧ x.omb_account_code = code) = some a →
      getOrCreateAccount rs bu code t =
        (a, { rs with accountCache := (bu.omb_code ++ ":" ++ code, a) :: rs.accountCache })) ∧
    (∀ (rs : RunState) (bu : Bureau) (code t : String),
      alookup (bu.omb_code ++ ":" ++ code) rs.accountCache = none →
      rs.db.accounts.find? (fun x => x.bureau_id = bu.id ∧ x.omb_account_code = code) = none →
      (getOrCreateAccount rs bu code t).2.db.accounts =
        rs.db.accounts ++ [(getOrCreateAccount rs bu code t).1] ∧
      (getOrCreateAccount rs bu code t).1.bureau_id = bu.id ∧
      (getOrCreateAccount rs bu code t).1.omb_account_code = code) ∧
    (∀ (rs : RunState) (code t1 t2 : String),
      getOrCreateFunction (getOrCreateFunction rs code t1).2 code t2 =
        getOrCreateFunction rs code t1) ∧
    (∀ (rs : RunState) (code t : String) (f : BudgetFunction),
      alookup code rs.functionCache = none →
      rs.db.functions.find? (fun x => x.code = code) = some f →
      getOrCreateFunction rs code t =
        (f, { rs with functionCache := (code, f) :: rs.functionCache })) ∧
    (∀ (rs : RunState) (code t : String),
      alookup code rs.functionCache = none →
      rs.db.functions.find? (fun x => x.code = code) = none →
      (getOrCreateFunction rs code t).2.db.functions =
        rs.db.functions ++ [(getOrCreateFunction rs code t).1] ∧
      (getOrCreateFunction rs code t).1.code = code) ∧
    (∀ (rs : RunState) (fn : BudgetFunction) (code t1 t2 : String),
      getOrCreateSubfunction (getOrCreateSubfunction rs fn code t1).2 fn code t2 =
        getOrCreateSubfunction rs fn code t1) ∧
    (∀ (rs : RunState) (fn : BudgetFunction) (code t : String) (sf : BudgetSubfunction),
      alookup (fn.code ++ ":" ++ code) rs.subfunctionCache = none →
      rs.db.subfunctions.find? (fun x => x.function_id = fn.id ∧ x.code = code) = some sf →
      getOrCreateSubfunction rs fn code t =
        (sf, { rs with subfunctionCache := (fn.code ++ ":" ++ code, sf) :: rs.subfunctionCache })) ∧
    (∀ (rs : RunState) (fn : BudgetFunction) (code t : String),
      alookup (fn.code ++ ":" ++ code) rs.subfunctionCache = none →
      rs.db.subfunctions.find? (fun x => x.function_id = fn.id ∧ x.code = code) = none →
      (getOrCreateSubfunction rs fn code t).2.db.subfunctions =
        rs.db.subfunctions ++ [(getOrCreateSubfunction rs fn code t).1] ∧
      (getOrCreateSubfunction rs fn code t).1.function_id = fn.id ∧
      (getOrCreateSubfunction rs fn code t).1.code = code) ∧
    (∀ (rs : RunState) (code t1 t2 : String),
      getOrCreateObjectClass (getOrCreateObjectClass rs code t1).2 code t2 =
        getOrCreateObjectClass rs code t1) ∧
    (∀ (rs : RunState) (code t : String) (oc : ObjectClass),
      alookup code rs.objectClassCache = none →
      rs.db.objectClasses.find? (fun x => x.code = code) = some oc →
      getOrCreateObjectClass rs code t =
        (oc, { rs with objectClassCache := (code, oc) :: rs.objectClassCache })) ∧
    (∀ (rs : RunState) (code t : String),
      alookup code rs.objectClassCache = none →
      rs.db.objectClasses.find? (fun x => x.code = code) = none →
      (getOrCreateObjectClass rs code t).2.db.objectClasses =
        rs.db.objectClasses ++ [(getOrCreateObjectClass rs code t).1] ∧
      (getOrCreateObjectClass rs code t).1.code = code) := by
  refine ⟨?_, ?_, ?_, ?_, ?_, ?_, ?_, ?_, ?_, ?_, ?_, ?_, ?_, ?_, ?_, ?_, ?_, ?_⟩
  · intro rs code t1 t2
    rw [agencyCacheHit _ code t2 _ (agencyCache_after rs code t1)]
  · intro rs code t a h1 h2
    rw [getOrCreateAgency, h1, h2]
  · intro rs code t h1 h2
    rw [getOrCreateAgency, h1, h2]
    exact ⟨rfl, rfl⟩
  · intro rs ag code t1 t2
    rw [bureauCacheHit _ ag code t2 _ (bureauCache_after rs ag code t1)]
  · intro rs ag code t b h1 h2
    simp only [getOrCreateBureau]
    rw [h1, h2]
  · intro rs ag code t h1 h2
    simp only [getOrCreateBureau]
    rw [h1, h2]
    exact ⟨rfl, rfl, rfl⟩
  · intro rs bu code t1 t2
    rw [accountCacheHit _ bu code t2 _ (accountCache_after rs bu code t1)]
  · intro rs bu code t a h1 h2
    simp only [getOrCreateAccount]
    rw [h1, h2]
  · intro rs bu code t h1 h2
    simp only [getOrCreateAccount]
    rw [h1, h2]
    exact ⟨rfl, rfl, rfl⟩
  · intro rs code t1 t2
    rw [functionCacheHit _ code t2 _ (functionCache_after rs code t1)]
  · intro rs code t f h1 h2
    rw [getOrCreateFunction, h1, h2]
  · intro rs code t h1 h2
    rw [getOrCreateFunction, h1, h2]
    exact ⟨rfl, rfl⟩
  · intro rs fn code t1 t2
    rw [subfunctionCacheHit _ fn code t2 _ (subfunctionCache_after rs fn code t1)]
  · intro rs fn code t sf h1 h2
    simp only [getOrCreateSubfunction]
    rw [h1, h2]
  · intro rs fn code t h1 h2
    simp only [getOrCreateSubfunction]
    rw [h1, h2]
    exact ⟨rfl, rfl, rfl⟩
  · intro rs code t1 t2
    rw [objectClassCacheHit _ code t2 _ (objectClassCache_after rs code t1)]
  · intro rs code t oc h1 h2
    rw [getOrCreateObjectClass, h1, h2]
  · intro rs code t h1 h2
    rw [getOrCreateObjectClass, h1, h2]
    exact ⟨rfl, rfl⟩

/-- C3 witness: resolving agency code `"012"` twice against the empty
store creates it once (second call returns the same entity and state),
and the store-miss clause creates exactly one entity with that code. -/
theorem dimension_get_or_create_idempotent_witness :
    (getOrCreateAgency
        (getOrCreateAgency
          { db := emptyDb, dataSource := "OBJCLASS_2026", batchId := 0,
            agencyCache := [], bureauCache := [], accountCache := [],
            functionCache := [], subfunctionCache := [], objectClassCache := [],
            statSuccess := 0, statFailed := 0, statWarnings := 0 }
          "012" "Department of Agriculture").2 "012" "Department of Agriculture") =
      (getOrCreateAgency
        { db := emptyDb, dataSource := "OBJCLASS_2026", batchId := 0,
          agencyCache := [], bureauCache := [], accountCache := [],
          functionCache := [], subfunctionCache := [], objectClassCache := [],
          statSuccess := 0, statFailed := 0, statWarnings := 0 }
        "012" "Department of Agriculture") ∧
    (getOrCreateFunction
        { db := emptyDb, dataSource := "OBJCLASS_2026", batchId := 0,
          agencyCache := [], bureauCache := [], accountCache := [],
          functionCache := [], subfunctionCache := [], objectClassCache := [],
          statSuccess := 0, statFailed := 0, statWarnings := 0 }
        "800" "General Government").2.db.functions =
      emptyDb.functions ++
        [(getOrCreateFunction
          { db := emptyDb, dataSource := "OBJCLASS_2026", batchId := 0,
            agencyCache := [], bureauCache := [], accountCache := [],
            functionCache := [], subfunctionCache := [], objectClassCache := [],
            statSuccess := 0, statFailed := 0, statWarnings := 0 }
          "800" "General Government").1] := by
  constructor
  · exact dimension_get_or_create_idempotent.1 _ "012" "Department of Agriculture"
      "Department of Agriculture"
  · exact (dimension_get_or_create_idempotent.2.2.2.2.2.2.2.2.2.2.2.1 _ "800"
      "General Government" (by decide) (by decide)).1

/-! ### C9: bureau resolution and the composite key -/

/-- Distinctness of the agency ids in the store (so a foreign key denotes
one agency). -/
abbrev uniqueIds (l : List Agency) : Prop :=
  l.Pairwise (fun a b => a.id ≠ b.id)

/-- The agency row a foreign key points at. -/
def agencyFor (agencies : List Agency) (aid : ℕ) : Option Agency :=
  agencies.find? (fun a => a.id = aid)

/-- The composite cache key a stored bureau denotes, read back through its
agency foreign key. -/
def keyOf (agencies : List Agency) (b : Bureau) : Option String :=
  (agencyFor agencies b.agency_id).map (fun a => a.omb_code ++ ":" ++ b.omb_code)

/-- Well-formedness of the run-local bureau cache: every binding's key is
the composite key of its bureau under some stored agency. -/
abbrev bureauCacheWF (rs : RunState) : Prop :=
  ∀ p ∈ rs.bureauCache, ∃ a ∈ rs.db.agencies,
    a.id = p.2.agency_id ∧ p.1 = a.omb_code ++ ":" ++ p.2.omb_code

theorem alookup_mem {α : Type} (k : String) (l : List (String × α)) (v : α)
    (h : alookup k l = some v) : (k, v) ∈ l := by
  induction l with
  | nil => simp [alookup] at h
  | cons p rest ih =>
    rw [alookup] at h
    split at h
    · next heq =>
      cases h
      exact List.mem_cons.mpr (Or.inl (by cases p; simp_all))
    · exact List.mem_cons.mpr (Or.inr (ih h))

theorem find_by_id (l : List Agency) (a : Agency) (hu : uniqueIds l) (hm : a ∈ l) :
    agencyFor l a.id = some a := by
  induction l with
  | nil => simp at hm
  | cons b rest ih =>
    have hu2 := List.pairwise_cons.mp hu
    rcases List.mem_cons.mp hm with h | h
    · subst h
      rw [agencyFor, List.find?_cons_of_pos _ (by simp)]
    · have hne : b.id ≠ a.id := hu2.1 a h
      rw [agencyFor, List.find?_cons_of_neg _ (by simp [hne])]
      exact ih hu2.2 h

theorem getOrCreateBureau_agencies (rs : RunState) (ag : Agency) (code t : String) :
    (getOrCreateBureau rs ag code t).2.db.agencies = rs.db.agencies := by
  simp only [getOrCreateBureau]
  cases h1 : alookup (ag.omb_code ++ ":" ++ code) rs.bureauCache with
  | some b => rfl
  | none =>
    cases h2 : rs.db.bureaus.find? (fun x => x.agency_id = ag.id ∧ x.omb_code = code) with
    | some b => rfl
    | none => rfl

theorem getOrCreateBureau_wf (rs : RunState) (ag : Agency) (code t : String)
    (hwf : bureauCacheWF rs) (hmem : ag ∈ rs.db.agencies) :
    bureauCacheWF (getOrCreateBureau rs ag code t).2 := by
  cases h1 : alookup (ag.omb_code ++ ":" ++ code) rs.bureauCache with
  | some b =>
    rw [bureauCacheHit rs ag code t b h1]
    exact hwf
  | none =>
    cases h2 : rs.db.bureaus.find? (fun x => x.agency_id = ag.id ∧ x.omb_code = code) with
    | some b =>
      have hb : b.agency_id = ag.id ∧ b.omb_code = code := by
        have := List.find?_some h2
        simpa using this
      simp only [getOrCreateBureau]
      rw [h1, h2]
      intro p hp
      rcases List.mem_cons.mp hp with h | h
      · subst h
        exact ⟨ag, hmem, by rw [hb.1], by rw [hb.2]⟩
      · exact hwf p h
    | none =>
      simp only [getOrCreateBureau]
      rw [h1, h2]
      intro p hp
      rcases List.mem_cons.mp hp with h | h
      · subst h
        exact ⟨ag, hmem, rfl, rfl⟩
      · exact hwf p h

theorem getOrCreateBureau_keyOf (rs : RunState) (ag : Agency) (code t : String)
    (hu : uniqueIds rs.db.agencies) (hwf : bureauCacheWF rs)
    (hmem : ag ∈ rs.db.agencies) :
    keyOf rs.db.agencies (getOrCreateBureau rs ag code t).1 =
      some (ag.omb_code ++ ":" ++ code) := by
  cases h1 : alookup (ag.omb_code ++ ":" ++ code) rs.bureauCache with
  | some b =>
    rw [bureauCacheHit rs ag code t b h1]
    rcases hwf _ (alookup_mem _ _ _ h1) with ⟨a, hamem, haid, hkey⟩
    dsimp only at haid hkey
    rw [keyOf, ← haid, find_by_id rs.db.agencies a hu hamem]
    have hmap : Option.map (fun x : Agency => x.omb_code ++ ":" ++ b.omb_code) (some a) =
        some (a.omb_code ++ ":" ++ b.omb_code) := rfl
    rw [hmap, ← hkey]
  | none =>
    cases h2 : rs.db.bureaus.find? (fun x => x.agency_id = ag.id ∧ x.omb_code = code) with
    | some b =>
      have hb : b.agency_id = ag.id ∧ b.omb_code = code := by
        have := List.find?_some h2
        simpa using this
      simp only [getOrCreateBureau]
      rw [h1, h2]
      rw [keyOf, hb.1, hb.2, find_by_id rs.db.agencies ag hu hmem]
      simp
    | none =>
      simp only [getOrCreateBureau]
      rw [h1, h2]
      rw [keyOf]
      simp only
      rw [find_by_id rs.db.agencies ag hu hmem]
      simp

/-- The collision state: two stored agencies whose codes `"1:2"` and
`"1"` make the pairs `("1:2", "3")` and `("1", "2:3")` collide on the
composite cache key `"1:2:3"`. -/
def cexAgencyA : Agency := ⟨1, "1:2", "Agency A", none⟩

/-- The second agency of the collision state. -/
def cexAgencyB : Agency := ⟨2, "1", "Agency B", none⟩

/-- A fresh run over a store holding the two colliding agencies. -/
def cexState : RunState :=
  { db := { emptyDb with agencies := [cexAgencyA, cexAgencyB], nextId := 3 },
    dataSource := "OBJCLASS_2026", batchId := 0,
    agencyCache := [], bureauCache := [], accountCache := [],
    functionCache := [], subfunctionCache := [], objectClassCache := [],
    statSuccess := 0, statFailed := 0, statWarnings := 0 }

/-- C9 counterexample: the pairs `("1:2", "3")` and `("1", "2:3")` are
distinct, yet the second resolution returns the very bureau created for
the first pair (its agency foreign key is agency 1, not agency 2),
because both pairs render to the cache key `"1:2:3"`. -/
theorem bureau_pair_collision_cex :
    (cexAgencyA.omb_code, "3") ≠ (cexAgencyB.omb_code, "2:3") ∧
    (getOrCreateBureau (getOrCreateBureau cexState cexAgencyA "3" "Bureau X").2
        cexAgencyB "2:3" "Bureau Y").1 =
      (getOrCreateBureau cexState cexAgencyA "3" "Bureau X").1 ∧
    (getOrCreateBureau (getOrCreateBureau cexState cexAgencyA "3" "Bureau X").2
        cexAgencyB "2:3" "Bureau Y").1.agency_id ≠ cexAgencyB.id :=
  ⟨by decide, by decide, by decide⟩

/-- C9 (amended): within one run over a well-formed state, two calls with
the same agency entity and bureau code return the same Bureau; two calls
whose composite cache keys `agency code ++ ":" ++ bureau code` differ
return distinct Bureaus.  (Distinct pairs whose keys collide — possible
only when an agency code contains `':'` — may wrongly share one Bureau,
as the counterexample shows.) -/
theorem bureau_composite_identity :
    ∀ (rs : RunState) (ag1 ag2 : Agency) (c1 c2 t1 t2 : String),
      uniqueIds rs.db.agencies → bureauCacheWF rs →
      ag1 ∈ rs.db.agencies → ag2 ∈ rs.db.agencies →
      ((ag2 = ag1 ∧ c2 = c1) →
        (getOrCreateBureau (getOrCreateBureau rs ag1 c1 t1).2 ag2 c2 t2).1 =
          (getOrCreateBureau rs ag1 c1 t1).1) ∧
      (ag1.omb_code ++ ":" ++ c1 ≠ ag2.omb_code ++ ":" ++ c2 →
        (getOrCreateBureau (getOrCreateBureau rs ag1 c1 t1).2 ag2 c2 t2).1 ≠
          (getOrCreateBureau rs ag1 c1 t1).1) := by
  intro rs ag1 ag2 c1 c2 t1 t2 hu hwf hm1 hm2
  constructor
  · rintro ⟨rfl, rfl⟩
    rw [bureauCacheHit _ ag2 c2 t2 _ (bureauCache_after rs ag2 c2 t1)]
  · intro hk
    have hag1 : (getOrCreateBureau rs ag1 c1 t1).2.db.agencies = rs.db.agencies :=
      getOrCreateBureau_agencies rs ag1 c1 t1
    have h1 := getOrCreateBureau_keyOf rs ag1 c1 t1 hu hwf hm1
    have hu2 : uniqueIds (getOrCreateBureau rs ag1 c1 t1).2.db.agencies := by
      rw [hag1]; exact hu
    have hwf2 : bureauCacheWF (getOrCreateBureau rs ag1 c1 t1).2 :=
      getOrCreateBureau_wf rs ag1 c1 t1 hwf hm1
    have hm2b : ag2 ∈ (getOrCreateBureau rs ag1 c1 t1).2.db.agencies := by
      rw [hag1]; exact hm2
    have h2 := getOrCreateBureau_keyOf _ ag2 c2 t2 hu2 hwf2 hm2b
    rw [hag1] at h2
    intro heq
    rw [heq, h1] at h2
    exact hk (Option.some.inj h2)

/-- C9 witness: in the collision state, re-resolving `(agency A, "3")`
returns the same Bureau, and resolving `(agency B, "9")` (a distinct
composite key) returns a different Bureau. -/
theorem bureau_composite_identity_witness :
    (getOrCreateBureau (getOrCreateBureau cexState cexAgencyA "3" "Bureau X").2
        cexAgencyA "3" "Bureau X").1 =
      (getOrCreateBureau cexState cexAgencyA "3" "Bureau X").1 ∧
    (getOrCreateBureau (getOrCreateBureau cexState cexAgencyA "3" "Bureau X").2
        cexAgencyB "9" "Bureau Z").1 ≠
      (getOrCreateBureau cexState cexAgencyA "3" "Bureau X").1 := by
  constructor
  · exact (bureau_composite_identity cexState cexAgencyA cexAgencyA "3" "3"
      "Bureau X" "Bureau X" (by decide) (by decide) (by decide) (by decide)).1 ⟨rfl, rfl⟩
  · exact (bureau_composite_identity cexState cexAgencyA cexAgencyB "3" "9"
      "Bureau X" "Bureau Z" (by decide) (by decide) (by decide) (by decide)).2 (by decide)

/-! ### Frame lemmas: dimension resolution touches neither the fact
tables, the provenance table, the ledger nor the stats -/

/-- The run-state components that dimension resolution leaves unchanged. -/
def PreservesRun (rs s : RunState) : Prop :=
  s.db.outlays = rs.db.outlays ∧ s.db.rawImports = rs.db.rawImports ∧
  s.db.batches = rs.db.batches ∧ s.statSuccess = rs.statSuccess ∧
  s.statFailed = rs.statFailed ∧ s.statWarnings = rs.statWarnings ∧
  s.batchId = rs.batchId ∧ s.dataSource = rs.dataSource

theorem preservesRun_refl (rs : RunState) : PreservesRun rs rs :=
  ⟨rfl, rfl, rfl, rfl, rfl, rfl, rfl, rfl⟩

theorem preservesRun_trans {a b c : RunState}
    (h1 : PreservesRun a b) (h2 : PreservesRun b c) : PreservesRun a c := by
  obtain ⟨x1, x2, x3, x4, x5, x6, x7, x8⟩ := h1
  obtain ⟨y1, y2, y3, y4, y5, y6, y7, y8⟩ := h2
  exact ⟨y1.trans x1, y2.trans x2, y3.trans x3, y4.trans x4,
         y5.trans x5, y6.trans x6, y7.trans x7, y8.trans x8⟩

theorem agency_preserves (rs : RunState) (c t : String) :
    PreservesRun rs (getOrCreateAgency rs c t).2 := by
  simp only [getOrCreateAgency]
  cases alookup c rs.agencyCache with
  | some a => exact preservesRun_refl rs
  | none =>
    cases rs.db.agencies.find? (fun x => x.omb_code = c) with
    | some a => exact ⟨rfl, rfl, rfl, rfl, rfl, rfl, rfl, rfl⟩
    | none => exact ⟨rfl, rfl, rfl, rfl, rfl, rfl, rfl, rfl⟩

theorem bureau_preserves (rs : RunState) (ag : Agency) (c t : String) :
    PreservesRun rs (getOrCreateBureau rs ag c t).2 := by
  simp only [getOrCreateBureau]
  cases alookup (ag.omb_code ++ ":" ++ c) rs.bureauCache with
  | some b => exact preservesRun_refl rs
  | none =>
    cases rs.db.bureaus.find? (fun x => x.agency_id = ag.id ∧ x.omb_code = c) with
    | some b => exact ⟨rfl, rfl, rfl, rfl, rfl, rfl, rfl, rfl⟩
    | none => exact ⟨rfl, rfl, rfl, rfl, rfl, rfl, rfl, rfl⟩

theorem account_preserves (rs : RunState) (bu : Bureau) (c t : String) :
    PreservesRun rs (getOrCreateAccount rs bu c t).2 := by
  simp only [getOrCreateAccount]
  cases alookup (bu.omb_code ++ ":" ++ c) rs.accountCache with
  | some a => exact preservesRun_refl rs
  | none =>
    cases rs.db.accounts.find? (fun x => x.bureau_id = bu.id ∧ x.omb_account_code = c) with
    | some a => exact ⟨rfl, rfl, rfl, rfl, rfl, rfl, rfl, rfl⟩
    | none => exact ⟨rfl, rfl, rfl, rfl, rfl, rfl, rfl, rfl⟩

theorem function_preserves (rs : RunState) (c t : String) :
    PreservesRun rs (getOrCreateFunction rs c t).2 := by
  simp only [getOrCreateFunction]
  cases alookup c rs.functionCache with
  | some f => exact preservesRun_refl rs
  | none =>
    cases rs.db.functions.find? (fun x => x.code = c) with
    | some f => exact ⟨rfl, rfl, rfl, rfl, rfl, rfl, rfl, rfl⟩
    | none => exact ⟨rfl, rfl, rfl, rfl, rfl, rfl, rfl, rfl⟩

theorem subfunction_preserves (rs : RunState) (fn : BudgetFunction) (c t : String) :
    PreservesRun rs (getOrCreateSubfunction rs fn c t).2 := by
  simp only [getOrCreateSubfunction]
  cases alookup (fn.code ++ ":" ++ c) rs.subfunctionCache with
  | some sf => exact preservesRun_refl rs
  | none =>
    cases rs.db.subfunctions.find? (fun x => x.function_id = fn.id ∧ x.code = c) with
    | some sf => exact ⟨rfl, rfl, rfl, rfl, rfl, rfl, rfl, rfl⟩
    | none => exact ⟨rfl, rfl, rfl, rfl, rfl, rfl, rfl, rfl⟩

theorem objectClass_preserves (rs : RunState) (c t : String) :
    PreservesRun rs (getOrCreateObjectClass rs c t).2 := by
  simp only [getOrCreateObjectClass]
  cases alookup c rs.objectClassCache with
  | some oc => exact preservesRun_refl rs
  | none =>
    cases rs.db.objectClasses.find? (fun x => x.code = c) with
    | some oc => exact ⟨rfl, rfl, rfl, rfl, rfl, rfl, rfl, rfl⟩
    | none => exact ⟨rfl, rfl, rfl, rfl, rfl, rfl, rfl, rfl⟩

theorem resolveDims_preserves (rs : RunState) (row : Row) (fault : Option (ℕ × String)) :
    PreservesRun rs (resolveDims rs row fault).2 := by
  simp only [resolveDims]
  cases stageFault fault 0 with
  | some m => exact preservesRun_refl rs
  | none =>
    cases stageFault fault 1 with
    | some m => exact agency_preserves _ _ _
    | none =>
      cases stageFault fault 2 with
      | some m => exact preservesRun_trans (agency_preserves _ _ _) (bureau_preserves _ _ _ _)
      | none =>
        cases stageFault fault 3 with
        | some m =>
          exact preservesRun_trans
            (preservesRun_trans (agency_preserves _ _ _) (bureau_preserves _ _ _ _))
            (account_preserves _ _ _ _)
        | none =>
          cases stageFault fault 4 with
          | some m =>
            exact preservesRun_trans
              (preservesRun_trans
                (preservesRun_trans (agency_preserves _ _ _) (bureau_preserves _ _ _ _))
                (account_preserves _ _ _ _))
              (function_preserves _ _ _)
          | none =>
            cases stageFault fault 5 with
            | some m =>
              exact preservesRun_trans
                (preservesRun_trans
                  (preservesRun_trans
                    (preservesRun_trans (agency_preserves _ _ _) (bureau_preserves _ _ _ _))
                    (account_preserves _ _ _ _))
                  (function_preserves _ _ _))
                (subfunction_preserves _ _ _ _)
            | none =>
              exact preservesRun_trans
                (preservesRun_trans
                  (preservesRun_trans
                    (preservesRun_trans
                      (preservesRun_trans (agency_preserves _ _ _) (bureau_preserves _ _ _ _))
                      (account_preserves _ _ _ _))
                    (function_preserves _ _ _))
                  (subfunction_preserves _ _ _ _))
                (objectClass_preserves _ _ _)

theorem resolveDims_none_ok (rs : RunState) (row : Row) :
    ∃ dims rs1, resolveDims rs row none = (.ok dims, rs1) :=
  ⟨_, _, rfl⟩

theorem resolveDims_error (rs : RunState) (row : Row) (k : ℕ) (msg : String)
    (hk : k ≤ 5) :
    ∃ rs1, resolveDims rs row (some (k, msg)) = (.error msg, rs1) ∧ PreservesRun rs rs1 := by
  interval_cases k
  · exact ⟨rs, rfl, preservesRun_refl rs⟩
  · exact ⟨_, rfl, agency_preserves _ _ _⟩
  · exact ⟨_, rfl, preservesRun_trans (agency_preserves _ _ _) (bureau_preserves _ _ _ _)⟩
  · exact ⟨_, rfl,
      preservesRun_trans
        (preservesRun_trans (agency_preserves _ _ _) (bureau_preserves _ _ _ _))
        (account_preserves _ _ _ _)⟩
  · exact ⟨_, rfl,
      preservesRun_trans
        (preservesRun_trans
          (preservesRun_trans (agency_preserves _ _ _) (bureau_preserves _ _ _ _))
          (account_preserves _ _ _ _))
        (function_preserves _ _ _)⟩
  · exact ⟨_, rfl,
      preservesRun_trans
        (preservesRun_trans
          (preservesRun_trans
            (preservesRun_trans (agency_preserves _ _ _) (bureau_preserves _ _ _ _))
            (account_preserves _ _ _ _))
          (function_preserves _ _ _))
        (subfunction_preserves _ _ _ _)⟩

/-! ### C2: row-scoped failure isolation -/

/-- C2: when dimension resolution of a row raises (at any of its six
stages), the row's provenance record is written with status `"failed"`
and the captured message, no Outlay is written for the row, the failed
count increases by exactly one, the successful count is unchanged — and
the run itself still completes (`process_csv` returns normally for any
per-row faults). -/
theorem row_failure_isolation :
    (∀ (rs : RunState) (idx : ℕ) (row : Row) (k : ℕ) (msg : String), k ≤ 5 →
      (processRow rs idx row (some (k, msg))).db.outlays = rs.db.outlays ∧
      (processRow rs idx row (some (k, msg))).db.rawImports =
        rs.db.rawImports ++
          [{ import_batch_id := rs.batchId, row_number := idx + 1, raw := row,
             import_status := "failed", error_message := some msg }] ∧
      (processRow rs idx row (some (k, msg))).statFailed = rs.statFailed + 1 ∧
      (processRow rs idx row (some (k, msg))).statSuccess = rs.statSuccess) ∧
    (∀ (ds : String) (db : Db) (headers : List String) (rows : List Row)
        (rowFaults : ℕ → Option (ℕ × String)),
      validateCsvStructure headers = true →
      (processCsv ds db (.table headers rows) none rowFaults).1 = true) := by
  constructor
  · intro rs idx row k msg hk
    obtain ⟨rs1, heq, hres⟩ := resolveDims_error rs row k msg hk
    obtain ⟨ho, hr, hb, hs, hf, hw, hbid, hds⟩ := hres
    simp only [processRow, heq]
    exact ⟨ho, by rw [hr, hbid], by rw [hf], hs⟩
  · intro ds db headers rows rowFaults hv
    simp [processCsv, hv]

/-- C2 witness: a row failing at the bureau stage in a fresh run over the
empty store, with concrete effects checked. -/
theorem row_failure_isolation_witness :
    (processRow
        { db := emptyDb, dataSource := "OBJCLASS_2026", batchId := 7,
          agencyCache := [], bureauCache := [], accountCache := [],
          functionCache := [], subfunctionCache := [], objectClassCache := [],
          statSuccess := 4, statFailed := 0, statWarnings := 0 }
        2
        { agencyCode := "012", agencyTitle := "Agriculture", bureauCode := "10",
          bureauTitle := "Farm Service", accountCode := "3300",
          accountTitle := "Salaries", functionField := "800 - General Government",
          subfunctionField := "801 - Legislative", objClassCode := "25.1",
          objClassTitle := "Advisory", amounts := [("PY Amount", .str "5")] }
        (some (1, "db error"))).statFailed = 0 + 1 ∧
    (processRow
        { db := emptyDb, dataSource := "OBJCLASS_2026", batchId := 7,
          agencyCache := [], bureauCache := [], accountCache := [],
          functionCache := [], subfunctionCache := [], objectClassCache := [],
          statSuccess := 4, statFailed := 0, statWarnings := 0 }
        2
        { agencyCode := "012", agencyTitle := "Agriculture", bureauCode := "10",
          bureauTitle := "Farm Service", accountCode := "3300",
          accountTitle := "Salaries", functionField := "800 - General Government",
          subfunctionField := "801 - Legislative", objClassCode := "25.1",
          objClassTitle := "Advisory", amounts := [("PY Amount", .str "5")] }
        (some (1, "db error"))).db.outlays = emptyDb.outlays := by
  constructor
  · exact (row_failure_isolation.1 _ 2 _ 1 "db error" (by decide)).2.2.1
  · exact (row_failure_isolation.1 _ 2 _ 1 "db error" (by decide)).1

/-! ### C4: shape of the emitted facts -/

theorem amountLoop_mem (ds : String) (bid : ℕ) (dims : Dims) :
    ∀ (l : List (String × Cell)) (o : Outlay),
      o ∈ (amountLoop ds bid dims l).1 →
      ∃ p ∈ l, ∃ a : ℤ, parseAmount p.2 = .ok (some a) ∧ a ≠ 0 ∧
        o = mkOutlay ds bid dims p.1 a := by
  intro l
  induction l with
  | nil =>
    intro o ho
    simp [amountLoop] at ho
  | cons p rest ih =>
    intro o
    rw [amountLoop]
    cases hpa : parseAmount p.2 with
    | error msg =>
      intro ho
      simp at ho
    | ok a? =>
      cases a? with
      | none =>
        intro ho
        obtain ⟨q, hq, a, h1, h2, h3⟩ := ih o ho
        exact ⟨q, List.mem_cons_of_mem p hq, a, h1, h2, h3⟩
      | some a =>
        by_cases ha : a ≠ 0
        · intro ho
          have ho2 : o = mkOutlay ds bid dims p.1 a ∨ o ∈ (amountLoop ds bid dims rest).1 := by
            have hm : o ∈ mkOutlay ds bid dims p.1 a :: (amountLoop ds bid dims rest).1 := by
              simpa [ha] using ho
            exact List.mem_cons.mp hm
          rcases ho2 with rfl | ho2
          · exact ⟨p, List.mem_cons_self p rest, a, hpa, ha, rfl⟩
          · obtain ⟨q, hq, a2, h1, h2, h3⟩ := ih o ho2
            exact ⟨q, List.mem_cons_of_mem p hq, a2, h1, h2, h3⟩
        · intro ho
          have ho2 : o ∈ (amountLoop ds bid dims rest).1 := by
            simpa [ha] using ho
          obtain ⟨q, hq, a2, h1, h2, h3⟩ := ih o ho2
          exact ⟨q, List.mem_cons_of_mem p hq, a2, h1, h2, h3⟩

theorem amountLoop_none_length (ds : String) (bid : ℕ) (dims : Dims) :
    ∀ l : List (String × Cell), (amountLoop ds bid dims l).2 = none →
      (amountLoop ds bid dims l).1.length =
        (l.filter (fun p =>
          match parseAmount p.2 with
          | .ok (some a) => decide (a ≠ 0)
          | _ => false)).length := by
  intro l
  induction l with
  | nil =>
    intro _
    rfl
  | cons p rest ih =>
    intro h2
    cases hpa : parseAmount p.2 with
    | error msg =>
      rw [amountLoop, hpa] at h2
      simp at h2
    | ok a? =>
      cases a? with
      | none =>
        rw [amountLoop, hpa] at h2
        simp only [amountLoop, hpa, List.filter_cons]
        simpa using ih h2
      | some a =>
        rw [amountLoop, hpa] at h2
        by_cases ha : a ≠ 0
        · have h2b : (amountLoop ds bid dims rest).2 = none := by
            simpa [ha] using h2
          simp only [amountLoop, hpa, List.filter_cons]
          have h3 := ih h2b
          simp [ha] at h3 ⊢
          omega
        · have h2b : (amountLoop ds bid dims rest).2 = none := by
            simpa [ha] using h2
          simp only [amountLoop, hpa, List.filter_cons]
          have h3 := ih h2b
          simp [ha] at h3 ⊢
          omega

theorem amountLoop_abort (ds : String) (bid : ℕ) (dims : Dims) :
    ∀ (pre : List (String × Cell)) (col : String) (c : Cell)
      (post : List (String × Cell)) (msg : String),
      parseAmount c = .error msg →
      (∀ p ∈ pre, ∀ m : String, parseAmount p.2 ≠ .error m) →
      amountLoop ds bid dims (pre ++ (col, c) :: post) =
        ((amountLoop ds bid dims pre).1, some msg) := by
  intro pre
  induction pre with
  | nil =>
    intro col c post msg herr _
    rw [List.nil_append]
    conv_lhs => rw [amountLoop]
    rw [herr]
    rfl
  | cons p pre ih =>
    intro col c post msg herr hok
    have hok2 : ∀ x ∈ pre, ∀ m : String, parseAmount x.2 ≠ .error m :=
      fun x hx => hok x (List.mem_cons_of_mem p hx)
    have hrec := ih col c post msg herr hok2
    rw [List.cons_append, amountLoop, amountLoop]
    cases hpa : parseAmount p.2 with
    | error m => exact absurd hpa (hok p (List.mem_cons_self p pre) m)
    | ok a? =>
      cases a? with
      | none => exact hrec
      | some a =>
        by_cases ha : a ≠ 0
        · simp only [ha, if_true, hrec]
          rw [if_pos ha, if_pos ha]
        · simp only [ha, if_false]
          exact hrec

theorem amountLoop_trivial (ds : String) (bid : ℕ) (dims : Dims) :
    ∀ l : List (String × Cell),
      (∀ p ∈ l, parseAmount p.2 = .ok none ∨ parseAmount p.2 = .ok (some 0)) →
      amountLoop ds bid dims l = ([], none) := by
  intro l
  induction l with
  | nil =>
    intro _
    rfl
  | cons p rest ih =>
    intro h
    have hrec := ih (fun x hx => h x (List.mem_cons_of_mem p hx))
    rw [amountLoop]
    rcases h p (List.mem_cons_self p rest) with hz | hz
    · rw [hz]
      exact hrec
    · rw [hz]
      exact hrec

/-- The row of the C4 counterexample: its first amount cell is `"inf"`
and its second parses to the nonzero 5000. -/
def c4Row : Row :=
  { agencyCode := "012", agencyTitle := "Agriculture", bureauCode := "10",
    bureauTitle := "Farm Service", accountCode := "3300", accountTitle := "Salaries",
    functionField := "800 - General Government", subfunctionField := "801 - Legislative",
    objClassCode := "25.1", objClassTitle := "Advisory",
    amounts := [("2026 PY Amount", .str "inf"), ("2027 CY Amount", .str "5")] }

/-- A fresh run over the empty store for the C4 counterexample. -/
def c4State : RunState :=
  { db := emptyDb, dataSource := "OBJCLASS_2026", batchId := 7,
    agencyCache := [], bureauCache := [], accountCache := [],
    functionCache := [], subfunctionCache := [], objectClassCache := [],
    statSuccess := 0, statFailed := 0, statWarnings := 0 }

/-- C4 counterexample: `"2027 CY Amount"` is an amount column of `c4Row`
whose cell parses to the nonzero value 5000 — by the claim it should
produce exactly one Outlay — yet the row processor writes no Outlay at
all for the row: the preceding `"inf"` cell raises `OverflowError`
mid-loop, aborting the amount loop, and the row is recorded failed
rather than successful. -/
theorem outlay_emission_cex :
    isAmountCol "2027 CY Amount" = true ∧
    parseAmount (.str "5") = .ok (some 5000) ∧
    (processRow c4State 0 c4Row none).db.outlays = [] ∧
    (processRow c4State 0 c4Row none).statFailed = 1 ∧
    (processRow c4State 0 c4Row none).statSuccess = 0 :=
  ⟨by decide, by decide, by decide, by decide, by decide⟩

/-- C4 (amended): every Outlay the row processor writes has amount ≠ 0
and confidence score exactly 1 and references the row's resolved
account, function, subfunction, object class and the open batch.  The
amount columns are processed left to right: when no cell's parse raises,
a cell parsing to no value or exactly zero produces no Outlay and every
other cell produces exactly one Outlay; a cell whose parse raises
`OverflowError` (an infinite float) produces no Outlay, aborts the loop
— cells after it produce no Outlay, Outlays staged before it are still
written — and the row is marked failed instead of successful. -/
theorem outlay_emission_invariants :
    ∀ (rs : RunState) (idx : ℕ) (row : Row) (dims : Dims) (rs1 : RunState)
      (amountCols : List (String × Cell)),
      resolveDims rs row none = (.ok dims, rs1) →
      amountCols = row.amounts.filter (fun p => isAmountCol p.1) →
      ((processRow rs idx row none).db.outlays =
        rs.db.outlays ++ (amountLoop rs.dataSource rs.batchId dims amountCols).1) ∧
      (∀ o ∈ (amountLoop rs.dataSource rs.batchId dims amountCols).1,
        o.amount ≠ 0 ∧ o.confidence_score = 1 ∧
        o.account_id = dims.account.id ∧ o.function_id = dims.function.id ∧
        o.subfunction_id = dims.subfunction.id ∧ o.object_class_id = dims.objectClass.id ∧
        o.import_batch_id = rs.batchId ∧ o.data_source = rs.dataSource) ∧
      ((amountLoop rs.dataSource rs.batchId dims amountCols).2 = none →
        (amountLoop rs.dataSource rs.batchId dims amountCols).1.length =
          (amountCols.filter (fun p =>
            match parseAmount p.2 with
            | .ok (some a) => decide (a ≠ 0)
            | _ => false)).length) ∧
      (∀ (pre post : List (String × Cell)) (col : String) (c : Cell) (msg : String),
        amountCols = pre ++ (col, c) :: post →
        parseAmount c = .error msg →
        (∀ p ∈ pre, ∀ m : String, parseAmount p.2 ≠ .error m) →
        amountLoop rs.dataSource rs.batchId dims amountCols =
          ((amountLoop rs.dataSource rs.batchId dims pre).1, some msg)) ∧
      (∀ msg : String,
        (amountLoop rs.dataSource rs.batchId dims amountCols).2 = some msg →
        (processRow rs idx row none).statFailed = rs.statFailed + 1 ∧
        (processRow rs idx row none).statSuccess = rs.statSuccess) := by
  intro rs idx row dims rs1 amountCols hre hcols
  have hres := resolveDims_preserves rs row none
  rw [hre] at hres
  dsimp only at hres
  obtain ⟨ho, hr, hb, hs, hf, hw, hbid, hds⟩ := hres
  subst hcols
  refine ⟨?_, ?_, ?_, ?_, ?_⟩
  · simp only [processRow, hre]
    split
    · dsimp only
      rw [ho, hds, hbid]
    · dsimp only
      rw [ho, hds, hbid]
  · intro o hmem
    obtain ⟨p, hp, a, h1, h2, h3⟩ :=
      amountLoop_mem rs.dataSource rs.batchId dims _ o hmem
    subst h3
    exact ⟨h2, rfl, rfl, rfl, rfl, rfl, rfl, rfl⟩
  · exact amountLoop_none_length rs.dataSource rs.batchId dims _
  · intro pre post col c msg hsplit herr hpok
    rw [hsplit]
    exact amountLoop_abort rs.dataSource rs.batchId dims pre col c post msg herr hpok
  · intro msg hmsg
    have hmsg2 : (amountLoop rs1.dataSource rs1.batchId dims
        (row.amounts.filter (fun p => isAmountCol p.1))).2 = some msg := by
      rw [hds, hbid]
      exact hmsg
    simp only [processRow, hre, hmsg2]
    exact ⟨by rw [hf], hs⟩

/-- Resolved dimension entities used by the C4 witness, matching the
prefilled caches of `c4CacheState`. -/
def c4Dims : Dims :=
  ⟨⟨10, "012", "Agriculture", none⟩, ⟨11, 10, "10", "Farm Service", none⟩,
   ⟨12, 11, "3300", "Salaries", "Salaries"⟩,
   ⟨13, "800", "General Government", "General Government"⟩,
   ⟨14, 13, "801", "Legislative", "Legislative"⟩,
   ⟨15, "25.1", "Advisory", "25", "Advisory"⟩⟩

/-- A run state whose caches already hold the entities of `c4Dims`. -/
def c4CacheState : RunState :=
  { db := emptyDb, dataSource := "OBJCLASS_2026", batchId := 7,
    agencyCache := [("012", ⟨10, "012", "Agriculture", none⟩)],
    bureauCache := [("012:10", ⟨11, 10, "10", "Farm Service", none⟩)],
    accountCache := [("10:3300", ⟨12, 11, "3300", "Salaries", "Salaries"⟩)],
    functionCache := [("800", ⟨13, "800", "General Government", "General Government"⟩)],
    subfunctionCache := [("800:801", ⟨14, 13, "801", "Legislative", "Legislative"⟩)],
    objectClassCache := [("25.1", ⟨15, "25.1", "Advisory", "25", "Advisory"⟩)],
    statSuccess := 0, statFailed := 0, statWarnings := 0 }

/-- A resolvable row with one nonzero, one zero and one blank amount
cell. -/
def c4OkRow : Row :=
  { agencyCode := "012", agencyTitle := "Agriculture", bureauCode := "10",
    bureauTitle := "Farm Service", accountCode := "3300", accountTitle := "Salaries",
    functionField := "800 - General Government", subfunctionField := "801 - Legislative",
    objClassCode := "25.1", objClassTitle := "Advisory",
    amounts := [("2026 PY Amount", .str "5"), ("2027 CY Amount", .str "0"),
                ("2028 BY Amount", .str "")] }

/-- C4 witness: on `c4OkRow` (no cell raises) exactly one Outlay is
emitted, and on `c4Row` the aborting `"inf"` cell marks the row
failed. -/
theorem outlay_emission_invariants_witness :
    (amountLoop c4CacheState.dataSource c4CacheState.batchId c4Dims
      (c4OkRow.amounts.filter (fun p => isAmountCol p.1))).1.length = 1 ∧
    (processRow c4State 0 c4Row none).statFailed = c4State.statFailed + 1 := by
  constructor
  · have h3 := (outlay_emission_invariants c4CacheState 0 c4OkRow c4Dims _ _
      rfl rfl).2.2.1 (by decide)
    exact h3.trans (by decide)
  · exact ((outlay_emission_invariants c4State 0 c4Row _ _ _ rfl rfl).2.2.2.2
      overflowMsg (by decide)).1

/-! ### C10: rows whose amounts all vanish still succeed -/

/-- C10: a row whose resolution succeeds but whose amount cells all parse
to no value or exactly zero is recorded as a success: one provenance
record with status `"success"`, successful count up by one, no Outlay
written, failed count unchanged. -/
theorem zero_amount_row_success :
    ∀ (rs : RunState) (idx : ℕ) (row : Row),
      (∀ p ∈ row.amounts, isAmountCol p.1 = true →
        parseAmount p.2 = .ok none ∨ parseAmount p.2 = .ok (some 0)) →
      (processRow rs idx row none).db.outlays = rs.db.outlays ∧
      (processRow rs idx row none).db.rawImports =
        rs.db.rawImports ++
          [{ import_batch_id := rs.batchId, row_number := idx + 1, raw := row,
             import_status := "success", error_message := none }] ∧
      (processRow rs idx row none).statSuccess = rs.statSuccess + 1 ∧
      (processRow rs idx row none).statFailed = rs.statFailed := by
  intro rs idx row hz
  obtain ⟨dims, rs1, hre⟩ := resolveDims_none_ok rs row
  have hres := resolveDims_preserves rs row none
  rw [hre] at hres
  dsimp only at hres
  obtain ⟨ho, hr, hb, hs, hf, hw, hbid, hds⟩ := hres
  have htriv := amountLoop_trivial rs1.dataSource rs1.batchId dims
    (row.amounts.filter (fun p => isAmountCol p.1))
    (fun p hp => hz p (List.mem_filter.mp hp).1 (List.mem_filter.mp hp).2)
  simp only [processRow, hre, htriv]
  refine ⟨?_, ?_, ?_, ?_⟩
  · dsimp only
    rw [List.append_nil, ho]
  · dsimp only
    rw [hr, hbid]
  · dsimp only
    rw [hs]
  · exact hf

/-- C10 witness: a resolved row whose only amount cells are `"0"` and a
blank cell is a success with no outlays. -/
theorem zero_amount_row_success_witness :
    (processRow
        { db := emptyDb, dataSource := "OBJCLASS_2026", batchId := 7,
          agencyCache := [], bureauCache := [], accountCache := [],
          functionCache := [], subfunctionCache := [], objectClassCache := [],
          statSuccess := 0, statFailed := 3, statWarnings := 0 }
        5
        { agencyCode := "012", agencyTitle := "Agriculture", bureauCode := "10",
          bureauTitle := "Farm Service", accountCode := "3300",
          accountTitle := "Salaries", functionField := "800 - General Government",
          subfunctionField := "801 - Legislative", objClassCode := "25.1",
          objClassTitle := "Advisory",
          amounts := [("2026 PY Amount", .str "0"), ("2027 CY Amount", .nan)] }
        none).statSuccess = 0 + 1 ∧
    (processRow
        { db := emptyDb, dataSource := "OBJCLASS_2026", batchId := 7,
          agencyCache := [], bureauCache := [], accountCache := [],
          functionCache := [], subfunctionCache := [], objectClassCache := [],
          statSuccess := 0, statFailed := 3, statWarnings := 0 }
        5
        { agencyCode := "012", agencyTitle := "Agriculture", bureauCode := "10",
          bureauTitle := "Farm Service", accountCode := "3300",
          accountTitle := "Salaries", functionField := "800 - General Government",
          subfunctionField := "801 - Legislative", objClassCode := "25.1",
          objClassTitle := "Advisory",
          amounts := [("2026 PY Amount", .str "0"), ("2027 CY Amount", .nan)] }
        none).db.outlays = emptyDb.outlays := by
  constructor
  · exact (zero_amount_row_success _ 5 _ (by decide)).2.2.1
  · exact (zero_amount_row_success _ 5 _ (by decide)).1

/-! ### C5: the batch ledger lifecycle -/

theorem processRow_frame (rs : RunState) (idx : ℕ) (row : Row)
    (fault : Option (ℕ × String)) :
    (processRow rs idx row fault).db.batches = rs.db.batches ∧
    (processRow rs idx row fault).batchId = rs.batchId ∧
    (processRow rs idx row fault).statWarnings = rs.statWarnings ∧
    (processRow rs idx row fault).statSuccess + (processRow rs idx row fault).statFailed =
      rs.statSuccess + rs.statFailed + 1 := by
  rcases hre : resolveDims rs row fault with ⟨r, rs1⟩
  have hres := resolveDims_preserves rs row fault
  rw [hre] at hres
  dsimp only at hres
  obtain ⟨ho, hr, hb, hs, hf, hw, hbid, hds⟩ := hres
  cases r with
  | error msg =>
    simp only [processRow, hre]
    refine ⟨hb, hbid, hw, ?_⟩
    dsimp only
    omega
  | ok dims =>
    simp only [processRow, hre]
    split
    · refine ⟨hb, hbid, hw, ?_⟩
      dsimp only
      omega
    · refine ⟨hb, hbid, hw, ?_⟩
      dsimp only
      omega

theorem runRowsFrom_frame :
    ∀ (rows : List Row) (rs : RunState) (idx : ℕ)
      (rowFaults : ℕ → Option (ℕ × String)),
    (runRowsFrom rs idx rows rowFaults).db.batches = rs.db.batches ∧
    (runRowsFrom rs idx rows rowFaults).batchId = rs.batchId ∧
    (runRowsFrom rs idx rows rowFaults).statWarnings = rs.statWarnings ∧
    (runRowsFrom rs idx rows rowFaults).statSuccess +
        (runRowsFrom rs idx rows rowFaults).statFailed =
      rs.statSuccess + rs.statFailed + rows.length := by
  intro rows
  induction rows with
  | nil =>
    intro rs idx rf
    exact ⟨rfl, rfl, rfl, rfl⟩
  | cons r rest ih =>
    intro rs idx rf
    rw [runRowsFrom]
    obtain ⟨pb, pbid, pw, pstat⟩ := processRow_frame rs idx r (rf idx)
    obtain ⟨qb, qbid, qw, qstat⟩ := ih (processRow rs idx r (rf idx)) (idx + 1) rf
    refine ⟨qb.trans pb, qbid.trans pbid, qw.trans pw, ?_⟩
    rw [List.length_cons]
    omega

theorem find_update (l : List ImportBatch) (batch : ImportBatch)
    (f : ImportBatch → ImportBatch) (bid : ℕ)
    (hbid : batch.id = bid) (hne : ∀ b ∈ l, b.id ≠ bid) (hf : (f batch).id = bid) :
    ((l ++ [batch]).map (fun b => if b.id = bid then f b else b)).find?
        (fun b => b.id = bid) = some (f batch) := by
  induction l with
  | nil =>
    simp only [List.nil_append, List.map_cons, List.map_nil]
    rw [if_pos hbid]
    rw [List.find?_cons_of_pos _ (by simp [hf])]
  | cons b rest ih =>
    have hbne : b.id ≠ bid := hne b (List.mem_cons_self b rest)
    simp only [List.cons_append, List.map_cons]
    rw [if_neg hbne]
    rw [List.find?_cons_of_neg _ (by simp [hbne])]
    exact ih (fun x hx => hne x (List.mem_cons_of_mem b hx))

theorem finalize_lookup (rs : RunState) (db : Db) (batch : ImportBatch)
    (hb : rs.db.batches = db.batches ++ [batch]) (hbid : rs.batchId = batch.id)
    (hne : ∀ b ∈ db.batches, b.id ≠ batch.id) :
    lookupBatch (finalizeBatch rs) batch.id =
      some { batch with successful_imports := rs.statSuccess, failed_imports := rs.statFailed, warnings := rs.statWarnings, status := "completed", endTimeSet := true } := by
  rw [lookupBatch, finalizeBatch, updateBatch]
  dsimp only
  rw [hbid, hb]
  exact find_update db.batches batch _ batch.id rfl hne rfl

theorem failed_lookup (db0 db : Db) (batch : ImportBatch) (err : String)
    (hb : db0.batches = db.batches ++ [batch])
    (hne : ∀ b ∈ db.batches, b.id ≠ batch.id) :
    lookupBatch (markBatchFailed db0 batch.id err) batch.id =
      some { batch with status := "failed", error_log := some err, endTimeSet := true } := by
  rw [lookupBatch, markBatchFailed, updateBatch]
  dsimp only
  rw [hb]
  exact find_update db.batches batch _ batch.id rfl hne rfl

/-- C5: under a fresh batch id, a run whose row loop completes finalizes
its batch exactly once to `"completed"` with the accumulated counts and
an end timestamp (row failures included); an uncaught run-level fault
instead marks the batch `"failed"` with the exception text logged and the
end timestamp set, and the run reports failure; an unreadable file fails
with no batch opened. -/
theorem batch_finalization_paths :
    ∀ (ds : String) (db : Db) (headers : List String) (rows : List Row)
      (rowFaults : ℕ → Option (ℕ × String)),
      validateCsvStructure headers = true →
      (∀ b ∈ db.batches, b.id < db.nextId) →
      ((processCsv ds db (.table headers rows) none rowFaults).1 = true ∧
        ∃ b, lookupBatch (processCsv ds db (.table headers rows) none rowFaults).2
            db.nextId = some b ∧
          b.status = "completed" ∧ b.endTimeSet = true ∧ b.error_log = none ∧
          b.total_rows = rows.length ∧ b.warnings = 0 ∧
          b.successful_imports + b.failed_imports = rows.length) ∧
      (∀ err : String,
        (processCsv ds db (.table headers rows) (some err) rowFaults).1 = false ∧
        ∃ b, lookupBatch (processCsv ds db (.table headers rows) (some err) rowFaults).2
            db.nextId = some b ∧
          b.status = "failed" ∧ b.error_log = some err ∧ b.endTimeSet = true) ∧
      (∀ err2 : String,
        processCsv ds db (.unreadable err2) none rowFaults = (false, db)) := by
  intro ds db headers rows rowFaults hv hfresh
  have hne : ∀ b ∈ db.batches, b.id ≠ db.nextId :=
    fun b hb => Nat.ne_of_lt (hfresh b hb)
  obtain ⟨qb, qbid, qw, qstat⟩ := runRowsFrom_frame rows
    { db := { db with batches := db.batches ++ [initialBatch ds db.nextId rows.length], nextId := db.nextId + 1 }, dataSource := ds, batchId := db.nextId, agencyCache := [], bureauCache := [], accountCache := [], functionCache := [], subfunctionCache := [], objectClassCache := [], statSuccess := 0, statFailed := 0, statWarnings := 0 }
    0 rowFaults
  dsimp only at qb qbid qw qstat
  refine ⟨⟨?_, ?_⟩, ?_, fun err2 => rfl⟩
  · simp [processCsv, hv]
  · simp only [processCsv, hv, if_true]
    refine ⟨_, finalize_lookup _ db (initialBatch ds db.nextId rows.length) qb qbid hne,
      rfl, rfl, rfl, rfl, ?_, ?_⟩
    · exact qw
    · dsimp only
      omega
  · intro err
    refine ⟨by simp [processCsv, hv], ?_⟩
    simp only [processCsv, hv, if_true]
    exact ⟨_, failed_lookup _ db (initialBatch ds db.nextId rows.length) err rfl hne,
      rfl, rfl, rfl⟩

/-- A representative OBJCLASS row used by concrete run witnesses. -/
def sampleRow : Row :=
  { agencyCode := "012", agencyTitle := "Agriculture", bureauCode := "10",
    bureauTitle := "Farm Service", accountCode := "3300", accountTitle := "Salaries",
    functionField := "800 - General Government", subfunctionField := "801 - Legislative",
    objClassCode := "25.1", objClassTitle := "Advisory",
    amounts := [("2026 PY Amount", .str "5")] }

/-- C5 witness: a two-row run (one row failing at the agency stage) over
the empty store completes with a `"completed"` batch, and a run-level
fault yields a `"failed"` batch and a false return. -/
theorem batch_finalization_paths_witness :
    (processCsv "OBJCLASS_2026" emptyDb
        (.table (requiredColumns ++ ["2026 PY Amount"]) [sampleRow, sampleRow]) none
        (fun i => if i = 1 then some (0, "bad agency") else none)).1 = true ∧
    (processCsv "OBJCLASS_2026" emptyDb
        (.table (requiredColumns ++ ["2026 PY Amount"]) [sampleRow, sampleRow])
        (some "disk gone") (fun _ => none)).1 = false := by
  constructor
  · exact (batch_finalization_paths "OBJCLASS_2026" emptyDb
      (requiredColumns ++ ["2026 PY Amount"]) [sampleRow, sampleRow]
      (fun i => if i = 1 then some (0, "bad agency") else none)
      (by decide) (by decide)).1.1
  · exact ((batch_finalization_paths "OBJCLASS_2026" emptyDb
      (requiredColumns ++ ["2026 PY Amount"]) [sampleRow, sampleRow]
      (fun _ => none) (by decide) (by decide)).2.1 "disk gone").1

end ObjClass
